import Mathlib

/-!
Verification development for the SPIR-V shader bytecode reflector of
dlk-gamedev (crate `spirv`: `src/spirv/src/lib.rs`, `src/spirv/src/module.rs`,
`src/spirv/src/result.rs`).

The crate contains two reflector implementations:

* `module.rs`: `Module`, `TypeInfo`, `TypeInfo::calc_size`,
  `Module::get_type_from_id`, `Module::get_uniform_info`,
  `Module::get_inputs`, `Module::descriptor_count_from_type`.
* `lib.rs`: `ShaderModule` with its own decode loop, `get_io_type_from_id`,
  `get_inputs`, `get_uniforms`.

Both are embedded here.  Rust `u32` arithmetic is modelled as `Nat` with an
explicit `% 2^32` at every operation that can overflow; Rust `Result` plus
the possibility of a `panic!`/`unwrap` failure or unbounded recursion is
modelled by the `Outcome` type below.  Recursive type resolution has no
cycle guard in the source, so the embeddings take a recursion-depth fuel
argument; fuel exhaustion is modelled as the `panic` outcome (a stack
overflow aborts the Rust process just like a panic does).

Rust `HashMap`s (in `ShaderModule`) are modelled as association lists with
insert-replaces-existing-key semantics; iteration order of a Rust `HashMap`
is unspecified, and the list order used here fixes one such order.
-/

namespace SpirvRefl

/-! ## Constants

`build.rs` generates `MAGIC_NUMBER`, `SPIRV_VERSION` and the `OP_*` /
`DECORATION_*` / `STORAGE_CLASS_*` / `ACCESS_QUALIFIER_*` constants from the
SPIR-V unified1 grammar JSON (an external submodule, not part of the crate's
own sources).  The values below are the standard SPIR-V values from that
grammar; they agree with the numeric literals hardcoded in `lib.rs`
(OpName = 5, OpTypeVoid = 19, ..., OpVariable = 59, OpDecorate = 71,
OpMemberDecorate = 72, Location = 30, Binding = 33, magic 0x07230203). -/

def MAGIC_NUMBER : Nat := 0x07230203

/-- Maximum SPIR-V version supported, as generated by `build.rs`:
(major <<< 16) ||| (minor <<< 8) for the unified1 grammar (1.6). -/
def SPIRV_VERSION : Nat := 0x10600

def OP_NAME : Nat := 5
def OP_MEMBER_NAME : Nat := 6
def OP_ENTRY_POINT : Nat := 15
def OP_TYPE_VOID : Nat := 19
def OP_TYPE_BOOL : Nat := 20
def OP_TYPE_INT : Nat := 21
def OP_TYPE_FLOAT : Nat := 22
def OP_TYPE_VECTOR : Nat := 23
def OP_TYPE_MATRIX : Nat := 24
def OP_TYPE_IMAGE : Nat := 25
def OP_TYPE_SAMPLER : Nat := 26
def OP_TYPE_SAMPLED_IMAGE : Nat := 27
def OP_TYPE_ARRAY : Nat := 28
def OP_TYPE_RUNTIME_ARRAY : Nat := 29
def OP_TYPE_STRUCT : Nat := 30
def OP_TYPE_POINTER : Nat := 32
def OP_VARIABLE : Nat := 59
def OP_DECORATE : Nat := 71
def OP_MEMBER_DECORATE : Nat := 72

def DECORATION_LOCATION : Nat := 30
def DECORATION_BINDING : Nat := 33
def DECORATION_DESCRIPTOR_SET : Nat := 34
def DECORATION_OFFSET : Nat := 35

def STORAGE_CLASS_UNIFORM_CONSTANT : Nat := 0
def STORAGE_CLASS_INPUT : Nat := 1
def STORAGE_CLASS_UNIFORM : Nat := 2
def STORAGE_CLASS_IMAGE : Nat := 11
def STORAGE_CLASS_STORAGE_BUFFER : Nat := 12
def ACCESS_QUALIFIER_READ_ONLY : Nat := 0

/-- The `u32` modulus, 2^32. -/
def U32M : Nat := 4294967296

/-! ## Errors and outcomes -/

/-- The `result.rs` `Error`.  The `Io` payload (`std::io::Error`) carries no
information relevant to any claim and is dropped.  `invalidVersion` is the
variant that `module.rs` line 157 constructs
(`Error::InvalidVersion((version, crate::SPIRV_VERSION))`); note that the
`Error` enum in `result.rs` does **not** define it — the constructor exists
here so that `Module::from_code` can be embedded as written. -/
inductive Err where
  | invalidFileLength (len : Nat)
  | incorrectMagicWord (word : Nat)
  | invalidOperandEnd (totalWords wordCount : Nat)
  | ioError
  | noAssociatedType (id : Nat)
  | invalidType
  | locationMissing (id : Nat)
  | nameMissing (id : Nat)
  | decorationMissing (id : Nat)
  | invalidVersion (version maxSupported : Nat)
deriving DecidableEq, Repr

/-- The result of running a piece of Rust code: a value, a typed `Err`
returned to the caller, or an aborting failure (a `panic!`, an
out-of-bounds index, an `unwrap` of `None`, or — for the fuel-based
embeddings of the unguarded recursions — a stack overflow). -/
inductive Outcome (α : Type) where
  | ok : α → Outcome α
  | error : Err → Outcome α
  | panic : String → Outcome α
deriving Repr, DecidableEq

def Outcome.bind {α β : Type} : Outcome α → (α → Outcome β) → Outcome β
  | .ok a, f => f a
  | .error e, _ => .error e
  | .panic s, _ => .panic s

instance : Monad Outcome where
  pure := .ok
  bind := Outcome.bind

@[simp] theorem Outcome.bind_ok {α β : Type} (a : α) (f : α → Outcome β) :
    Outcome.bind (.ok a) f = f a := rfl

@[simp] theorem Outcome.bind_error {α β : Type} (e : Err) (f : α → Outcome β) :
    Outcome.bind (.error e) f = .error e := rfl

@[simp] theorem Outcome.bind_panic {α β : Type} (s : String) (f : α → Outcome β) :
    Outcome.bind (.panic s) f = .panic s := rfl

@[simp] theorem Outcome.monad_bind_eq {α β : Type} (x : Outcome α) (f : α → Outcome β) :
    (x >>= f) = Outcome.bind x f := rfl

@[simp] theorem Outcome.pure_eq {α : Type} (a : α) : (pure a : Outcome α) = .ok a := rfl

def Outcome.map {α β : Type} (f : α → β) : Outcome α → Outcome β
  | .ok a => .ok (f a)
  | .error e => .error e
  | .panic s => .panic s

def Outcome.isOk {α : Type} : Outcome α → Bool
  | .ok _ => true
  | _ => false

def Outcome.isError {α : Type} : Outcome α → Bool
  | .error _ => true
  | _ => false

@[simp] theorem Outcome.isOk_ok {α : Type} (a : α) : (Outcome.ok a).isOk = true := rfl

@[simp] theorem Outcome.isOk_error {α : Type} (e : Err) :
    (Outcome.error (α := α) e).isOk = false := rfl

@[simp] theorem Outcome.isOk_panic {α : Type} (s : String) :
    (Outcome.panic (α := α) s).isOk = false := rfl

/-- Rust slice indexing `l[j]`: the value, or an index-out-of-bounds panic. -/
def getOp (l : List Nat) (j : Nat) : Outcome Nat :=
  match l[j]? with
  | some v => .ok v
  | none => .panic "index out of bounds"

@[simp] theorem getOp_eq (l : List Nat) (j : Nat) :
    getOp l j = match l[j]? with | some v => .ok v | none => .panic "index out of bounds" := rfl

/-! ## `module.rs` data model -/

/-- The `module.rs` `RawInstruction`: opcode plus operand words. -/
structure RawInstruction where
  opcode : Nat
  operands : List Nat
deriving DecidableEq, Repr

/-- The `module.rs` `Module`: a name and the decoded instruction list. -/
structure Module where
  name : String
  instructions : List RawInstruction
deriving DecidableEq, Repr

mutual
/-- The `module.rs` `TypeInfo`. -/
inductive TypeInfo where
  | void : TypeInfo
  | bool : TypeInfo
  | int (name : String) (width : Nat) (signed : Bool) : TypeInfo
  | float (name : String) (width : Nat) : TypeInfo
  | vec (name : String) (component_type : TypeInfo) (component_count : Nat) : TypeInfo
  | mat (name : String) (col_type : TypeInfo) (col_count : Nat) : TypeInfo
  | strct (name : String) (members : List StructMemberInfo) : TypeInfo
  | pointer (ptr_type : TypeInfo) : TypeInfo
  | image (sampled_type : TypeInfo) (format depth dimentionality : Nat)
      (arrayed multisampled : Bool) (sampled : Nat) : TypeInfo
  | sampler : TypeInfo
  | sampledImage (image_type : TypeInfo) : TypeInfo
  | array (element_type : TypeInfo) (element_count : Nat) : TypeInfo
  | runtimeArray (element_type : TypeInfo) : TypeInfo

/-- The `module.rs` `StructMemberInfo`. -/
inductive StructMemberInfo where
  | mk (field_type : TypeInfo) (field_offset : Nat) (field_name : String) : StructMemberInfo
end

def StructMemberInfo.field_type : StructMemberInfo → TypeInfo
  | .mk t _ _ => t

def StructMemberInfo.field_offset : StructMemberInfo → Nat
  | .mk _ o _ => o

def StructMemberInfo.field_name : StructMemberInfo → String
  | .mk _ _ n => n

@[simp] theorem StructMemberInfo.field_type_mk (t : TypeInfo) (o : Nat) (n : String) :
    (StructMemberInfo.mk t o n).field_type = t := rfl

@[simp] theorem StructMemberInfo.field_offset_mk (t : TypeInfo) (o : Nat) (n : String) :
    (StructMemberInfo.mk t o n).field_offset = o := rfl

@[simp] theorem StructMemberInfo.field_name_mk (t : TypeInfo) (o : Nat) (n : String) :
    (StructMemberInfo.mk t o n).field_name = n := rfl

/-! ## `module.rs` string and name lookups -/

/-- The four little-endian bytes of a word (`u32::to_le_bytes`). -/
def wordLeBytes (w : Nat) : List Nat :=
  [w % 256, w / 256 % 256, w / 65536 % 256, w / 16777216 % 256]

/-- Collect bytes until the first 0 byte (the nul terminator scan shared by
the string-literal parsers in both files). -/
def takeUntilZero : List Nat → List Nat
  | [] => []
  | b :: bs => if b = 0 then [] else b :: takeUntilZero bs

/-- The `Module::parse_string_literal`: skip operand 0, then take the
little-endian bytes of the remaining words up to the nul terminator.
`String::from_utf8_lossy` is modelled as the byte-to-character map, which
agrees with it on ASCII data. -/
def parse_string_literal (operands : List Nat) : String :=
  String.mk (((operands.drop 1).flatMap wordLeBytes |> takeUntilZero).map Char.ofNat)

/-- The `Module::get_type_name_from_id`: first `OpName` instruction targeting the
id.  Indexing `i.operands[0]` panics when an `OpName` instruction has no
operands, hence the `Outcome`. -/
def get_type_name_from_id (m : Module) (type_id : Nat) : Outcome (Option String) :=
  go m.instructions
where
  go : List RawInstruction → Outcome (Option String)
    | [] => .ok none
    | i :: rest =>
      if i.opcode ≠ OP_NAME then go rest
      else
        Outcome.bind (getOp i.operands 0) fun target =>
          if target ≠ type_id then go rest
          else .ok (some (parse_string_literal i.operands))

/-! ## `module.rs` type resolver (`Module::get_type_from_id`)

The Rust function scans the instruction list for the first instruction whose
operand 0 equals the requested id and whose opcode is one of the thirteen
type opcodes it dispatches on (any other instruction, matching id or not, is
skipped), and recurses into nested type ids with no cycle guard.  The
embedding passes the recursive resolver explicitly (`resolve`), and
`get_type_from_id` ties the knot with a fuel argument: each nesting level of
the Rust recursion consumes one unit of fuel, and running out of fuel is the
stack-overflow abort. -/

/-- Member-name lookup inside the struct arm: the first `OpMemberName`
instruction whose operands 0 and 1 match the struct id and member index;
its name is parsed from `operands[1..]` (whose own first element is again
skipped by `parse_string_literal`). -/
def findMemberName (m : Module) (structure_type_id member_index : Nat) :
    Outcome (Option String) :=
  go m.instructions
where
  go : List RawInstruction → Outcome (Option String)
    | [] => .ok none
    | d :: rest =>
      if d.opcode ≠ OP_MEMBER_NAME then go rest
      else
        Outcome.bind (getOp d.operands 0) fun o0 =>
          if o0 ≠ structure_type_id then go rest
          else
            Outcome.bind (getOp d.operands 1) fun o1 =>
              if o1 ≠ member_index then go rest
              else .ok (some (parse_string_literal (d.operands.drop 1)))

/-- Member-offset lookup inside the struct arm: the first `OpMemberDecorate`
instruction whose operand 2 is the `Offset` decoration and whose operands 0
and 1 match the struct id and member index; the offset is operand 3.
(The source reads `operands[2]` before checking `operands[0]`.) -/
def findMemberOffset (m : Module) (structure_type_id member_index : Nat) :
    Outcome (Option Nat) :=
  go m.instructions
where
  go : List RawInstruction → Outcome (Option Nat)
    | [] => .ok none
    | d :: rest =>
      if d.opcode ≠ OP_MEMBER_DECORATE then go rest
      else
        Outcome.bind (getOp d.operands 2) fun decoration =>
          if decoration ≠ DECORATION_OFFSET then go rest
          else
            Outcome.bind (getOp d.operands 0) fun o0 =>
              if o0 ≠ structure_type_id then go rest
              else
                Outcome.bind (getOp d.operands 1) fun o1 =>
                  if o1 ≠ member_index then go rest
                  else Outcome.bind (getOp d.operands 3) fun off => .ok (some off)

/-- The struct arm's member join (`filter_map` over the declared member type
ids): for each member index, the name, the recursively resolved type and the
`Offset` decoration are computed (in that order, eagerly, as in the source);
a member missing any of the three is dropped, a resolution `Err` counts as
missing, and a panic propagates. -/
def joinMembers (resolve : Nat → Outcome TypeInfo) (m : Module)
    (structure_type_id : Nat) :
    List Nat → Nat → Outcome (List StructMemberInfo)
  | [], _ => .ok []
  | member_type_id :: rest, member_index => do
    let field_name ← findMemberName m structure_type_id member_index
    let field_type ←
      match resolve member_type_id with
      | .ok t => Outcome.ok (some t)
      | .error _ => Outcome.ok none
      | .panic s => Outcome.panic s
    let field_offset ← findMemberOffset m structure_type_id member_index
    let tail ← joinMembers resolve m structure_type_id rest (member_index + 1)
    match field_name, field_type, field_offset with
    | some n, some ty, some o => .ok (.mk ty o n :: tail)
    | _, _, _ => .ok tail

/-- One dispatch step of `get_type_from_id`: the thirteen opcode arms.
`none` is the default arm (`continue` scanning).  `i.operands[0]` is the
instruction's result id (nonempty operands are guaranteed by the scan
guard, but the access is still modelled as a checked index). -/
def dispatchInst (resolve : Nat → Outcome TypeInfo) (m : Module)
    (i : RawInstruction) : Option (Outcome TypeInfo) :=
  if i.opcode = OP_TYPE_VOID then some (.ok .void)
  else if i.opcode = OP_TYPE_BOOL then some (.ok .bool)
  else if i.opcode = OP_TYPE_INT then some (do
    let width ← getOp i.operands 1
    let sgn ← getOp i.operands 2
    let signed := sgn == 1
    let default_name : Option String :=
      if width = 32 then (if signed then some "int" else some "uint") else none
    let id0 ← getOp i.operands 0
    let nm ← get_type_name_from_id m id0
    match nm with
    | some n => Outcome.ok (TypeInfo.int n width signed)
    | none =>
      match default_name with
      | some d => Outcome.ok (TypeInfo.int d width signed)
      | none => Outcome.panic "Option::unwrap on None")
  else if i.opcode = OP_TYPE_FLOAT then some (do
    let width ← getOp i.operands 1
    let default_name : Option String :=
      if width = 32 then some "float" else if width = 64 then some "double" else none
    let id0 ← getOp i.operands 0
    let nm ← get_type_name_from_id m id0
    match nm with
    | some n => Outcome.ok (TypeInfo.float n width)
    | none =>
      match default_name with
      | some d => Outcome.ok (TypeInfo.float d width)
      | none => Outcome.panic "Option::unwrap on None")
  else if i.opcode = OP_TYPE_VECTOR then some (do
    let component_type_id ← getOp i.operands 1
    let component_type ← resolve component_type_id
    let component_count ← getOp i.operands 2
    let default_name := "vec" ++ toString component_count
    let id0 ← getOp i.operands 0
    let nm ← get_type_name_from_id m id0
    .ok (TypeInfo.vec (nm.getD default_name) component_type component_count))
  else if i.opcode = OP_TYPE_MATRIX then some (do
    let col_type_id ← getOp i.operands 1
    let col_type ← resolve col_type_id
    let col_count ← getOp i.operands 2
    let default_name := "mat" ++ toString col_count
    let id0 ← getOp i.operands 0
    let nm ← get_type_name_from_id m id0
    .ok (TypeInfo.mat (nm.getD default_name) col_type col_count))
  else if i.opcode = OP_TYPE_STRUCT then some (do
    let id0 ← getOp i.operands 0
    let nm ← get_type_name_from_id m id0
    match nm with
    | none => Outcome.error (.nameMissing id0)
    | some name =>
      if i.operands.length ≤ 1 then Outcome.ok (TypeInfo.strct name [])
      else do
        let members ← joinMembers resolve m id0 (i.operands.drop 1) 0
        if members.length < i.operands.length - 1 then Outcome.error .invalidType
        else Outcome.ok (TypeInfo.strct name members))
  else if i.opcode = OP_TYPE_POINTER then some (do
    let ptr_type_id ← getOp i.operands 2
    let ptr_type ← resolve ptr_type_id
    .ok (TypeInfo.pointer ptr_type))
  else if i.opcode = OP_TYPE_IMAGE then some (do
    let _image_type_id ← getOp i.operands 0
    let sampled_type ← getOp i.operands 1
    let dimentionality ← getOp i.operands 2
    let depth ← getOp i.operands 3
    let arrayed ← getOp i.operands 4
    let multisampled ← getOp i.operands 5
    let sampled ← getOp i.operands 6
    let format ← getOp i.operands 7
    let sty ← resolve sampled_type
    .ok (TypeInfo.image sty format depth dimentionality (arrayed == 1)
      (multisampled == 1) sampled))
  else if i.opcode = OP_TYPE_SAMPLER then some (.ok .sampler)
  else if i.opcode = OP_TYPE_SAMPLED_IMAGE then some (do
    let image_type_id ← getOp i.operands 1
    let ity ← resolve image_type_id
    .ok (TypeInfo.sampledImage ity))
  else if i.opcode = OP_TYPE_ARRAY then some (do
    let element_type_id ← getOp i.operands 1
    let element_count ← getOp i.operands 2
    let ety ← resolve element_type_id
    .ok (TypeInfo.array ety element_count))
  else if i.opcode = OP_TYPE_RUNTIME_ARRAY then some (do
    let element_type_id ← getOp i.operands 2
    let ety ← resolve element_type_id
    .ok (TypeInfo.runtimeArray ety))
  else none

/-- The scan loop of `get_type_from_id`: skip instructions with no operands
or a non-matching operand 0; for a matching instruction, dispatch — the
default arm of the Rust `match` is `continue`, so an unhandled opcode keeps
scanning.  Falling off the end is `Err(Error::InvalidType)`. -/
def scanInsts (resolve : Nat → Outcome TypeInfo) (m : Module) (type_id : Nat) :
    List RawInstruction → Outcome TypeInfo
  | [] => .error .invalidType
  | i :: rest =>
    match i.operands with
    | [] => scanInsts resolve m type_id rest
    | op0 :: _ =>
      if op0 ≠ type_id then scanInsts resolve m type_id rest
      else
        match dispatchInst resolve m i with
        | some r => r
        | none => scanInsts resolve m type_id rest

/-- The `Module::get_type_from_id`, with recursion depth bounded by `fuel`. -/
def get_type_from_id (fuel : Nat) (m : Module) (type_id : Nat) : Outcome TypeInfo :=
  match fuel with
  | 0 => .panic "stack overflow"
  | f + 1 => scanInsts (fun id => get_type_from_id f m id) m type_id m.instructions

/-- The instruction `get_type_from_id` resolves an id from: the first
instruction with a nonempty operand list whose operand 0 is the id and whose
opcode is one of the thirteen dispatched type opcodes. -/
def isTypeDispatchOpcode (op : Nat) : Bool :=
  op == OP_TYPE_VOID || op == OP_TYPE_BOOL || op == OP_TYPE_INT ||
  op == OP_TYPE_FLOAT || op == OP_TYPE_VECTOR || op == OP_TYPE_MATRIX ||
  op == OP_TYPE_STRUCT || op == OP_TYPE_POINTER || op == OP_TYPE_IMAGE ||
  op == OP_TYPE_SAMPLER || op == OP_TYPE_SAMPLED_IMAGE || op == OP_TYPE_ARRAY ||
  op == OP_TYPE_RUNTIME_ARRAY

def findTypeInst (type_id : Nat) : List RawInstruction → Option RawInstruction
  | [] => none
  | i :: rest =>
    match i.operands with
    | [] => findTypeInst type_id rest
    | op0 :: _ =>
      if op0 = type_id ∧ isTypeDispatchOpcode i.opcode then some i
      else findTypeInst type_id rest

theorem dispatchInst_isSome (resolve : Nat → Outcome TypeInfo) (m : Module)
    (i : RawInstruction) :
    (dispatchInst resolve m i).isSome = isTypeDispatchOpcode i.opcode := by
  unfold dispatchInst isTypeDispatchOpcode
  by_cases h0 : i.opcode = OP_TYPE_VOID <;> simp [h0] <;>
  by_cases h1 : i.opcode = OP_TYPE_BOOL <;> simp [h1] <;>
  by_cases h2 : i.opcode = OP_TYPE_INT <;> simp [h2] <;>
  by_cases h3 : i.opcode = OP_TYPE_FLOAT <;> simp [h3] <;>
  by_cases h4 : i.opcode = OP_TYPE_VECTOR <;> simp [h4] <;>
  by_cases h5 : i.opcode = OP_TYPE_MATRIX <;> simp [h5] <;>
  by_cases h6 : i.opcode = OP_TYPE_STRUCT <;> simp [h6] <;>
  by_cases h7 : i.opcode = OP_TYPE_POINTER <;> simp [h7] <;>
  by_cases h8 : i.opcode = OP_TYPE_IMAGE <;> simp [h8] <;>
  by_cases h9 : i.opcode = OP_TYPE_SAMPLER <;> simp [h9] <;>
  by_cases h10 : i.opcode = OP_TYPE_SAMPLED_IMAGE <;> simp [h10] <;>
  by_cases h11 : i.opcode = OP_TYPE_ARRAY <;> simp [h11] <;>
  by_cases h12 : i.opcode = OP_TYPE_RUNTIME_ARRAY <;> simp [h12] <;> simp_all

/-- The scan loop in terms of `findTypeInst`: resolution dispatches on the
first dispatchable instruction defining the id, and fails with
`InvalidType` when there is none. -/
theorem scanInsts_eq_find (resolve : Nat → Outcome TypeInfo) (m : Module)
    (type_id : Nat) (insts : List RawInstruction) :
    scanInsts resolve m type_id insts =
      match findTypeInst type_id insts with
      | none => .error .invalidType
      | some i => (dispatchInst resolve m i).getD (.error .invalidType) := by
  induction insts with
  | nil => rfl
  | cons i rest ih =>
    unfold scanInsts findTypeInst
    match hops : i.operands with
    | [] => simpa using ih
    | op0 :: tl =>
      by_cases h : op0 = type_id
      · by_cases hd : isTypeDispatchOpcode i.opcode
        · have := dispatchInst_isSome resolve m i
          rw [hd] at this
          match hdisp : dispatchInst resolve m i with
          | none => rw [hdisp] at this; simp at this
          | some r => simp [h, hd, hdisp]
        · have := dispatchInst_isSome resolve m i
          rw [eq_false_of_ne_true hd] at this
          match hdisp : dispatchInst resolve m i with
          | none => simp [h, hd, hdisp, ih]
          | some r => rw [hdisp] at this; simp at this
      · simp [h, ih]

/-! ## `TypeInfo::calc_size` -/

/-- The member-selection loop of the struct arm of `calc_size`: keep the
current member only when the new one's offset is strictly greater, so the
first member attaining the maximal offset wins ties. -/
def pickLastMember (members : List StructMemberInfo) : Option StructMemberInfo :=
  members.foldl
    (fun last_member member =>
      match last_member with
      | some lm =>
        if member.field_offset > lm.field_offset then some member else some lm
      | none => some member)
    none

theorem pickLastMember_foldl_mem (members : List StructMemberInfo)
    (acc : Option StructMemberInfo) (lm : StructMemberInfo)
    (h : members.foldl
      (fun last_member member =>
        match last_member with
        | some prev =>
          if member.field_offset > prev.field_offset then some member else some prev
        | none => some member) acc = some lm) :
    acc = some lm ∨ lm ∈ members := by
  induction members generalizing acc with
  | nil => simp_all
  | cons m rest ih =>
    simp only [List.foldl_cons] at h
    rcases ih _ h with h2 | h2
    · match acc with
      | none => simp at h2; right; simp [h2]
      | some prev =>
        simp only at h2
        by_cases hgt : m.field_offset > prev.field_offset
        · simp [hgt] at h2; right; simp [h2]
        · simp [hgt] at h2; left; rw [h2]
    · right; exact List.mem_cons_of_mem _ h2

theorem pickLastMember_mem (members : List StructMemberInfo)
    (lm : StructMemberInfo) (h : pickLastMember members = some lm) :
    lm ∈ members := by
  rcases pickLastMember_foldl_mem members none lm h with h2 | h2
  · cases h2
  · exact h2

theorem StructMemberInfo.sizeOf_field_type_lt (lm : StructMemberInfo) :
    sizeOf lm.field_type < sizeOf lm := by
  cases lm with
  | mk t o n => simp [StructMemberInfo.field_type]; omega

/-- The `TypeInfo::calc_size`: byte sizes for scalars, vectors, matrices and
structs, `None` for everything else.  `u32` multiplication and addition are
taken modulo `2^32`. -/
def calc_size : TypeInfo → Option Nat
  | .bool => some 1
  | .int _ width _ => some (width / 8)
  | .float _ width => some (width / 8)
  | .vec _ component_type component_count =>
    match calc_size component_type with
    | none => none
    | some component_size => some (component_size * component_count % U32M)
  | .mat _ col_type col_count =>
    match calc_size col_type with
    | none => none
    | some col_size => some (col_size * col_count % U32M)
  | .strct sname members =>
    match h : pickLastMember members with
    | none => some 0
    | some last_member =>
      match calc_size last_member.field_type with
      | none => none
      | some s => some ((last_member.field_offset + s) % U32M)
  | _ => none
decreasing_by
  · simp [sizeOf, TypeInfo._sizeOf_1]; omega
  · simp [sizeOf, TypeInfo._sizeOf_1]; omega
  · have h1 := StructMemberInfo.sizeOf_field_type_lt last_member
    have h2 := List.sizeOf_lt_of_mem (pickLastMember_mem _ _ h)
    simp only [TypeInfo.strct.sizeOf_spec]
    omega

/-! ## `Module::descriptor_count_from_type` -/

/-- The `Module::descriptor_count_from_type`: multiply out `Array` layers,
unwrap `Pointer`s, and count 1 for everything else (`u32` multiplication
modulo `2^32`). -/
def descriptor_count_from_type : TypeInfo → Nat
  | .array element_type element_count =>
    element_count * descriptor_count_from_type element_type % U32M
  | .pointer ptr_type => descriptor_count_from_type ptr_type
  | _ => 1

/-! ## `module.rs` decoding (`Module::from_code`, `Module::from_file`) -/

/-- Rust `chunks_exact(4)` + `u32::from_le_bytes`: group the byte list into
little-endian 32-bit words, dropping an incomplete trailing chunk. -/
def bytesToWords : List Nat → List Nat
  | b0 :: b1 :: b2 :: b3 :: rest =>
    (b0 + 256 * b1 + 65536 * b2 + 16777216 * b3) :: bytesToWords rest
  | _ => []

/-- The instruction loop of `Module::from_code`, on the words after the
5-word header.  `word_count` is the high 16 bits of the leading word
(`>> 16` is division by 2^16) and `opcode` the low 16 (`& 0xFFFF` is mod
2^16).  A zero `word_count` hits `panic!("Word count should not be 0")`;
consuming an operand past the end of the buffer hits
`chunks.next().unwrap()` on `None`.  There is no typed-error exit. -/
def decodeInstructions : List Nat → Outcome (List RawInstruction)
  | [] => .ok []
  | first_word :: rest =>
    let word_count := first_word / 65536
    let opcode := first_word % 65536
    if word_count = 0 then .panic "Word count should not be 0"
    else if rest.length < word_count - 1 then .panic "Option::unwrap on None"
    else
      Outcome.bind (decodeInstructions (rest.drop (word_count - 1))) fun tail =>
        .ok (⟨opcode, rest.take (word_count - 1)⟩ :: tail)
termination_by l => l.length
decreasing_by simp; omega

/-- The `Module::from_code`: length and alignment check, magic word, version
word, three unvalidated header words, then the instruction loop.
(The version check constructs `Error::InvalidVersion`, a variant missing
from the `Error` enum in `result.rs`; see `Err.invalidVersion`.) -/
def module_from_code (name : String) (shader_code : List Nat) : Outcome Module :=
  if shader_code.length < 4 * 5 ∨ shader_code.length % 4 ≠ 0 then
    .error (.invalidFileLength shader_code.length)
  else
    match bytesToWords shader_code with
    | magic :: version :: _generator :: _bound :: _reserved :: body =>
      if magic ≠ MAGIC_NUMBER then .error (.incorrectMagicWord magic)
      else if version > SPIRV_VERSION then
        .error (.invalidVersion version SPIRV_VERSION)
      else
        Outcome.bind (decodeInstructions body) fun instructions =>
          .ok ⟨name, instructions⟩
    | _ => .panic "Option::unwrap on None"

/-- Rust `str::split(".")` on the underlying character list: segments
between dots, where leading, trailing and adjacent dots produce empty
segments.  The result is never empty. -/
def splitOnDot : List Char → List (List Char)
  | [] => [[]]
  | c :: cs =>
    if c = '.' then [] :: splitOnDot cs
    else
      match splitOnDot cs with
      | seg :: segs => (c :: seg) :: segs
      | [] => [[c]]

/-- The `capitalize_first` closure in `Module::from_file`: lowercase the
whole string, then uppercase the first character.  (Rust's
`char::to_uppercase` may expand to several characters outside ASCII; the
single-character model agrees with it on ASCII data.) -/
def capitalize_first (input : List Char) : List Char :=
  match input.map Char.toLower with
  | [] => []
  | first_char :: chars => first_char.toUpper :: chars

/-- The module-name computation of `Module::from_file` on the file's base
name: split on the dot, capitalize segment 0 and segment 1, and
concatenate those two.  Indexing `parts[1]` panics when the base name
contains no dot.  (The surrounding file I/O is not modelled.) -/
def module_name_from_file_name (path_str : String) : Outcome String :=
  let parts := splitOnDot path_str.data
  match parts[0]?, parts[1]? with
  | some p1, some p2 => .ok (String.mk (capitalize_first p1 ++ capitalize_first p2))
  | _, _ => .panic "index out of bounds"

/-! ## `module.rs` reflection extractors -/

/-- The decoration-value lookup pattern shared by `get_uniform_info` (with
`DECORATION_DESCRIPTOR_SET` / `DECORATION_BINDING`) and `get_inputs` (with
`DECORATION_LOCATION`): scan `OpDecorate` instructions for the first whose
operand 0 is the variable id and operand 1 the decoration, returning
operand 2. -/
def findDecorationValue (m : Module) (variable_id decoration_code : Nat) :
    Outcome (Option Nat) :=
  go m.instructions
where
  go : List RawInstruction → Outcome (Option Nat)
    | [] => .ok none
    | d :: rest =>
      if d.opcode ≠ OP_DECORATE then go rest
      else
        Outcome.bind (getOp d.operands 0) fun id =>
          if id ≠ variable_id then go rest
          else
            Outcome.bind (getOp d.operands 1) fun decoration =>
              if decoration ≠ decoration_code then go rest
              else Outcome.bind (getOp d.operands 2) fun v => .ok (some v)

/-- The `module.rs` `UniformInfo`. -/
structure UniformInfoM where
  set : Nat
  binding : Nat
  ty : TypeInfo
  storage_class : Nat
  descriptor_count : Nat

/-- The `module.rs` `ShaderIoInfo`. -/
structure ShaderIoInfoM where
  location : Nat
  name : String
  type_info : TypeInfo

/-- The `Module::get_uniform_info`: keep `OpVariable` instructions whose storage
class is Uniform, UniformConstant, ReadOnly or Image; look up the
DescriptorSet and Binding decorations and resolve the type; when any of the
three is missing the function hits `panic!("TODO: add error type")`. -/
def module_get_uniform_info (fuel : Nat) (m : Module) : Outcome (List UniformInfoM) :=
  go m.instructions
where
  go : List RawInstruction → Outcome (List UniformInfoM)
    | [] => .ok []
    | v :: rest =>
      if v.opcode ≠ OP_VARIABLE then go rest
      else
        Outcome.bind (getOp v.operands 1) fun variable_id =>
          Outcome.bind (getOp v.operands 2) fun storage_class =>
            if storage_class ≠ STORAGE_CLASS_UNIFORM ∧
                storage_class ≠ STORAGE_CLASS_UNIFORM_CONSTANT ∧
                storage_class ≠ ACCESS_QUALIFIER_READ_ONLY ∧
                storage_class ≠ STORAGE_CLASS_IMAGE then
              go rest
            else
              Outcome.bind (findDecorationValue m variable_id DECORATION_DESCRIPTOR_SET)
                fun set =>
              Outcome.bind (findDecorationValue m variable_id DECORATION_BINDING)
                fun binding =>
              Outcome.bind (getOp v.operands 0) fun variable_type_id =>
              Outcome.bind
                (match get_type_from_id fuel m variable_type_id with
                 | .ok t => Outcome.ok (some t)
                 | .error _ => Outcome.ok none
                 | .panic s => Outcome.panic s) fun ty =>
              match set, binding, ty with
              | some set, some binding, some ty =>
                Outcome.bind (go rest) fun tail =>
                  .ok ({ set, binding, ty, storage_class,
                         descriptor_count := descriptor_count_from_type ty } :: tail)
              | _, _, _ => .panic "TODO: add error type"

/-- The `Module::get_inputs`: a `filter_map` over the instructions keeping
`OpVariable`s with the Input storage class whose type resolves, whose id has
an `OpName`, and whose id has a `Location` decoration — a variable missing
any of these is dropped from the results without an error. -/
def module_get_inputs (fuel : Nat) (m : Module) : Outcome (List ShaderIoInfoM) :=
  go m.instructions
where
  go : List RawInstruction → Outcome (List ShaderIoInfoM)
    | [] => .ok []
    | i :: rest =>
      if i.opcode ≠ OP_VARIABLE then go rest
      else
        Outcome.bind (getOp i.operands 2) fun storage_class =>
          if storage_class ≠ STORAGE_CLASS_INPUT then go rest
          else
            Outcome.bind (getOp i.operands 0) fun variable_type_id =>
              Outcome.bind
                (match get_type_from_id fuel m variable_type_id with
                 | .ok t => Outcome.ok (some t)
                 | .error _ => Outcome.ok none
                 | .panic s => Outcome.panic s) fun ty? =>
              match ty? with
              | none => go rest
              | some type_info =>
                Outcome.bind (getOp i.operands 1) fun variable_id =>
                  Outcome.bind (get_type_name_from_id m variable_id) fun name? =>
                    match name? with
                    | none => go rest
                    | some name =>
                      Outcome.bind (findDecorationValue m variable_id DECORATION_LOCATION)
                        fun location? =>
                        match location? with
                        | none => go rest
                        | some location =>
                          Outcome.bind (go rest) fun tail =>
                            .ok ({ location, name, type_info } :: tail)

/-! ## `lib.rs` (`ShaderModule`) data model

`ShaderModule` keys everything by id in `HashMap`s; the embedding uses
association lists with `HashMap::insert`'s replace-on-existing-key
semantics (`insertA`).  Iteration order of a Rust `HashMap` is
unspecified; the list order here fixes one order. -/

/-- The `lib.rs` `OpTypeInfo` (ids, not resolved types). -/
inductive OpTypeInfo where
  | void
  | bool
  | int (width : Nat) (signed : Bool)
  | float (width : Nat)
  | vector (component_type_id component_count : Nat)
  | matrix (column_type_id column_count : Nat)
  | pointer (storage_class type_id : Nat)
  | strct (member_types : List Nat)
  | image (sampled_type dim depth arrayed ms sampled format : Nat)
  | sampler
  | sampledImage (image_type : Nat)
  | other
deriving DecidableEq, Repr

/-- The `lib.rs` `OpDecorateInfo`. -/
structure OpDecorateInfo where
  target_id : Nat
  decoration : Nat
  extra_operands : List Nat
deriving DecidableEq, Repr

/-- The `lib.rs` `OpMemberDecorateInfo`. -/
structure OpMemberDecorateInfo where
  structure_type_id : Nat
  literal_member : Nat
  decoration : Nat
  extra_operands : List Nat
deriving DecidableEq, Repr

/-- The `lib.rs` `EntryPointData`. -/
structure EntryPointData where
  execution_model : Nat
  entry_point_id : Nat
  name : Option String
  interface_ids : List Nat
deriving DecidableEq, Repr

/-- The `lib.rs` `ShaderModule` (here `ShaderModuleState` to avoid confusion
with the other file's `Module`): the decoded header words plus the id-keyed
maps built by the decode loop.  the Rust field `variables` (a reserved
word in Lean) is named `vars` here and maps a result id to
`(result_type_id, storage_class)`. -/
structure ShaderModuleState where
  version : Nat
  generator : Nat
  bound : Nat
  schema : Nat
  entry_points : List EntryPointData
  decorations : List (Nat × List OpDecorateInfo)
  member_decorations : List (Nat × List OpMemberDecorateInfo)
  vars : List (Nat × Nat × Nat)
  names : List (Nat × String)
  types : List (Nat × OpTypeInfo)
deriving DecidableEq, Repr

/-- The `HashMap::get` on the association-list model. -/
def lookupA {α : Type} : List (Nat × α) → Nat → Option α
  | [], _ => none
  | (k, v) :: rest, key => if k = key then some v else lookupA rest key

/-- The `HashMap::insert`: replace the value at an existing key, else add. -/
def insertA {α : Type} : List (Nat × α) → Nat → α → List (Nat × α)
  | [], k, v => [(k, v)]
  | (k0, v0) :: rest, k, v =>
    if k0 = k then (k, v) :: rest else (k0, v0) :: insertA rest k v

/-- The `get_mut`-push-or-insert-singleton pattern used for `decorations`
and `member_decorations`. -/
def pushMulti {α : Type} : List (Nat × List α) → Nat → α → List (Nat × List α)
  | [], k, d => [(k, [d])]
  | (k0, ds) :: rest, k, d =>
    if k0 = k then (k0, ds ++ [d]) :: rest else (k0, ds) :: pushMulti rest k d

/-- Rust `&words[a..b]` relative to the current suffix: panics when
`a > b` or `b` exceeds the suffix. -/
def sliceWords (rest : List Nat) (a b : Nat) : Outcome (List Nat) :=
  if a ≤ b ∧ b ≤ rest.length then .ok ((rest.drop a).take (b - a))
  else .panic "slice index out of range"

/-- The `name_word_count` loop of the `OpEntryPoint` arm: how many words are
consumed before (and including) the word containing the first nul byte; all
words when no nul occurs. -/
def entryNameWordCount : List Nat → Nat
  | [] => 0
  | w :: rest =>
    if (wordLeBytes w).any (· = 0) then 1 else 1 + entryNameWordCount rest

/-! ## `lib.rs` decode loop (`ShaderModule::from_code`) -/

/-- One opcode arm of the `ShaderModule::from_code` loop.  `rest` is the
word suffix starting at the instruction's leading word, so the Rust index
`words[i + k]` is `rest[k]` (an access beyond the whole buffer panics, and
`words[i + k]` for `k ≥ word_count` reads into the following instruction,
exactly as the source does).  Unhandled opcodes change nothing. -/
def shaderDecodeArm (rest : List Nat) (word_count opcode : Nat)
    (st : ShaderModuleState) : Outcome ShaderModuleState :=
  if opcode = 5 then
    -- OpName
    Outcome.bind (getOp rest 1) fun target_id =>
      let bytes := takeUntilZero (((rest.drop 2).take (word_count - 2)).flatMap wordLeBytes)
      let name := String.mk (bytes.map Char.ofNat)
      if name ≠ "" then .ok { st with names := insertA st.names target_id name }
      else .ok st
  else if opcode = 15 then
    -- OpEntryPoint
    Outcome.bind (getOp rest 1) fun execution_model =>
      Outcome.bind (getOp rest 2) fun entry_point_id =>
        let nameWords := (rest.drop 3).take (word_count - 3)
        let name_word_count := entryNameWordCount nameWords
        let bytes := takeUntilZero (nameWords.flatMap wordLeBytes)
        let name := if bytes.isEmpty then none
          else some (String.mk (bytes.map Char.ofNat))
        Outcome.bind (sliceWords rest (3 + name_word_count) word_count)
          fun interface_ids =>
            let eps := st.entry_points ++ [⟨execution_model, entry_point_id, name, interface_ids⟩]
            .ok { st with entry_points := eps }
  else if opcode = 19 then
    Outcome.bind (getOp rest 1) fun id => .ok { st with types := insertA st.types id .void }
  else if opcode = 20 then
    Outcome.bind (getOp rest 1) fun id => .ok { st with types := insertA st.types id .bool }
  else if opcode = 21 then
    Outcome.bind (getOp rest 1) fun id =>
      Outcome.bind (getOp rest 2) fun width =>
        Outcome.bind (getOp rest 3) fun signed =>
          .ok { st with types := insertA st.types id (.int width (signed ≠ 0)) }
  else if opcode = 22 then
    Outcome.bind (getOp rest 1) fun id =>
      Outcome.bind (getOp rest 2) fun width =>
        .ok { st with types := insertA st.types id (.float width) }
  else if opcode = 23 then
    Outcome.bind (getOp rest 1) fun id =>
      Outcome.bind (getOp rest 2) fun ct =>
        Outcome.bind (getOp rest 3) fun cc =>
          .ok { st with types := insertA st.types id (.vector ct cc) }
  else if opcode = 24 then
    Outcome.bind (getOp rest 1) fun id =>
      Outcome.bind (getOp rest 2) fun ct =>
        Outcome.bind (getOp rest 3) fun cc =>
          .ok { st with types := insertA st.types id (.matrix ct cc) }
  else if opcode = 25 then
    Outcome.bind (getOp rest 1) fun id =>
      Outcome.bind (getOp rest 2) fun sampled_type =>
        Outcome.bind (getOp rest 3) fun dim =>
          Outcome.bind (getOp rest 4) fun depth =>
            Outcome.bind (getOp rest 5) fun arrayed =>
              Outcome.bind (getOp rest 6) fun ms =>
                Outcome.bind (getOp rest 7) fun sampled =>
                  Outcome.bind (getOp rest 8) fun format =>
                    let ti := OpTypeInfo.image sampled_type dim depth arrayed ms sampled format
                    .ok { st with types := insertA st.types id ti }
  else if opcode = 26 then
    Outcome.bind (getOp rest 1) fun id => .ok { st with types := insertA st.types id .sampler }
  else if opcode = 27 then
    Outcome.bind (getOp rest 1) fun id =>
      Outcome.bind (getOp rest 2) fun it =>
        .ok { st with types := insertA st.types id (.sampledImage it) }
  else if opcode = 30 then
    Outcome.bind (getOp rest 1) fun id =>
      Outcome.bind (sliceWords rest 2 word_count) fun member_types =>
        .ok { st with types := insertA st.types id (.strct member_types) }
  else if opcode = 32 then
    Outcome.bind (getOp rest 1) fun id =>
      Outcome.bind (getOp rest 2) fun storage_class =>
        Outcome.bind (getOp rest 3) fun type_id =>
          .ok { st with types := insertA st.types id (.pointer storage_class type_id) }
  else if opcode = 59 then
    Outcome.bind (getOp rest 1) fun result_type_id =>
      Outcome.bind (getOp rest 2) fun result_id =>
        Outcome.bind (getOp rest 3) fun storage_class =>
          .ok { st with vars := insertA st.vars result_id (result_type_id, storage_class) }
  else if opcode = 71 then
    Outcome.bind (getOp rest 1) fun target_id =>
      Outcome.bind (getOp rest 2) fun decoration =>
        Outcome.bind (sliceWords rest 3 word_count) fun extra_operands =>
          let ds := pushMulti st.decorations target_id ⟨target_id, decoration, extra_operands⟩
          .ok { st with decorations := ds }
  else if opcode = 72 then
    Outcome.bind (getOp rest 1) fun structure_type_id =>
      Outcome.bind (getOp rest 2) fun literal_member =>
        Outcome.bind (getOp rest 3) fun decoration =>
          Outcome.bind (sliceWords rest 4 word_count) fun extra_operands =>
            let ds := pushMulti st.member_decorations structure_type_id
              ⟨structure_type_id, literal_member, decoration, extra_operands⟩
            .ok { st with member_decorations := ds }
  else .ok st

/-- The `while i < words.len()` loop of `ShaderModule::from_code` on the
word suffix from index 5: a zero `word_count` or an instruction overrunning
the buffer fails with `InvalidOperandEnd (total word count, word_count)`;
otherwise the arm runs and the cursor advances by `word_count`. -/
def shaderDecodeLoop (total : Nat) : List Nat → ShaderModuleState → Outcome ShaderModuleState
  | [], st => .ok st
  | w :: tail, st =>
    let word_count := w / 65536
    let opcode := w % 65536
    if word_count = 0 ∨ (w :: tail).length < word_count then
      .error (.invalidOperandEnd total word_count)
    else
      Outcome.bind (shaderDecodeArm (w :: tail) word_count opcode st) fun st2 =>
        shaderDecodeLoop total (tail.drop (word_count - 1)) st2
termination_by l => l.length
decreasing_by simp; omega

/-- The `ShaderModule::from_code`: length and alignment check, magic check
against the hardcoded `0x07230203`, then the instruction loop from word 5.
Words 1–4 are stored as version, generator, bound and schema without any
validation — in particular there is no version check and no
`InvalidVersion` error. -/
def shader_from_code (shader_code : List Nat) : Outcome ShaderModuleState :=
  if shader_code.length < 4 * 5 ∨ shader_code.length % 4 ≠ 0 then
    .error (.invalidFileLength shader_code.length)
  else
    match bytesToWords shader_code with
    | w0 :: w1 :: w2 :: w3 :: w4 :: body =>
      if w0 ≠ 0x07230203 then .error (.incorrectMagicWord w0)
      else
        shaderDecodeLoop (body.length + 5) body
          { version := w1, generator := w2, bound := w3, schema := w4,
            entry_points := [], decorations := [], member_decorations := [],
            vars := [], names := [], types := [] }
    | _ => .panic "index out of bounds"

/-! ## `lib.rs` reflection queries -/

/-- The `lib.rs` `ScalarType`. -/
inductive ScalarType where
  | int
  | unsigned
  | float
deriving DecidableEq, Repr

/-- The `lib.rs` `ShaderIoType`. -/
inductive ShaderIoType where
  | scalar (component_type : ScalarType) (component_width : Nat)
  | vector (component_type : ScalarType) (component_width component_count : Nat)
  | matrix (component_type : ScalarType) (component_width cols rows : Nat)
deriving DecidableEq, Repr

/-- Rust `get_shader_io_type_size` (`u32` products modulo `2^32`). -/
def get_shader_io_type_size : ShaderIoType → Nat
  | .scalar _ component_width => component_width / 8
  | .vector _ component_width component_count =>
    component_width * component_count % U32M / 8
  | .matrix _ component_width cols rows =>
    component_width * cols % U32M * rows % U32M / 8

/-- The `ShaderModule::get_io_type_from_id`: resolve an id through the `types`
map into a scalar/vector/matrix shape.  The recursion follows ids with no
cycle guard, hence the fuel. -/
def get_io_type_from_id (fuel : Nat) (sm : ShaderModuleState) (type_id : Nat) :
    Outcome ShaderIoType :=
  match fuel with
  | 0 => .panic "stack overflow"
  | f + 1 =>
    match lookupA sm.types type_id with
    | none => .error (.noAssociatedType type_id)
    | some (.int width signed) =>
      .ok (.scalar (if signed then .int else .unsigned) width)
    | some (.float width) => .ok (.scalar .float width)
    | some (.vector component_type_id component_count) =>
      Outcome.bind (get_io_type_from_id f sm component_type_id) fun t =>
        match t with
        | .scalar component_type component_width =>
          .ok (.vector component_type component_width component_count)
        | _ => .error .invalidType
    | some (.matrix column_type_id column_count) =>
      Outcome.bind (get_io_type_from_id f sm column_type_id) fun t =>
        match t with
        | .vector component_type component_width component_count =>
          .ok (.matrix component_type component_width column_count component_count)
        | _ => .error .invalidType
    | some _ => .error .invalidType

/-- The `lib.rs` `ShaderIoInfo`. -/
structure ShaderIoInfoL where
  id : Nat
  binding : Nat
  location : Nat
  io_type : ShaderIoType
  stride : Nat
  name : Option String
deriving DecidableEq, Repr

/-- The first-match decoration loops of `ShaderModule::get_inputs`
(`30 = Location`, `33 = Binding`): break at the first decoration with the
requested code, indexing `extra_operands[0]` (a panic when empty). -/
def findDecoExtra0 (decoration_code : Nat) : List OpDecorateInfo → Outcome (Option Nat)
  | [] => .ok none
  | d :: rest =>
    if d.decoration = decoration_code then
      match d.extra_operands[0]? with
      | some v => .ok (some v)
      | none => .panic "index out of bounds"
    else findDecoExtra0 decoration_code rest

/-- The first loop of `ShaderModule::get_inputs`: keep variables with the
Input storage class (1) whose type id is a known `Pointer` type, collecting
`(variable id, pointee type id)`; every other Input variable is skipped
without an error. -/
def collectInputIds (sm : ShaderModuleState) : List (Nat × Nat) :=
  sm.vars.filterMap fun v =>
    if v.2.2 ≠ 1 then none
    else
      match lookupA sm.types v.2.1 with
      | some (.pointer _ type_id) => some (v.1, type_id)
      | _ => none

/-- The body of the second loop of `ShaderModule::get_inputs`, for one
collected `(id, pointee type id)` pair: the name is optional; the
decorations list for the id is fetched with `.unwrap()` (a panic when the
id has no decorations at all); a missing Location decoration is
`Err(LocationMissing(id))`; a missing Binding decoration defaults to 0;
the io type is resolved and the stride computed from it. -/
def processInput (fuel : Nat) (sm : ShaderModuleState) (p : Nat × Nat) :
    Outcome ShaderIoInfoL :=
  let name := lookupA sm.names p.1
  match lookupA sm.decorations p.1 with
  | none => .panic "Option::unwrap on None"
  | some decos =>
    Outcome.bind (findDecoExtra0 30 decos) fun location? =>
      match location? with
      | none => .error (.locationMissing p.1)
      | some location =>
        Outcome.bind (findDecoExtra0 33 decos) fun binding? =>
          Outcome.bind (get_io_type_from_id fuel sm p.2) fun io_type =>
            .ok { id := p.1, binding := binding?.getD 0, location, io_type,
                  stride := get_shader_io_type_size io_type, name }

/-- The `ShaderModule::get_inputs`: process every collected input variable in
order, propagating the first failure. -/
def shader_get_inputs (fuel : Nat) (sm : ShaderModuleState) :
    Outcome (List ShaderIoInfoL) :=
  go (collectInputIds sm)
where
  go : List (Nat × Nat) → Outcome (List ShaderIoInfoL)
    | [] => .ok []
    | p :: rest =>
      Outcome.bind (processInput fuel sm p) fun info =>
        Outcome.bind (go rest) fun tail => .ok (info :: tail)

/-- The `lib.rs` `UniformType`. -/
inductive UniformType where
  | sampler
  | sampledImage
  | storageImage
  | uniformBuffer
  | storageBuffer
  | other
deriving DecidableEq, Repr

/-- The `lib.rs` `UniformInfo`. -/
structure UniformInfoL where
  binding : Nat
  set : Nat
  uniform_type : UniformType
  name : Option String
deriving DecidableEq, Repr

/-- The decoration scan of `ShaderModule::get_uniforms`: walk the whole
decoration list for the id, recording the last decoration 33 (`Binding`)
and the last decoration 35 (labelled `DescriptorSet` in the source) that
carry at least one extra operand. -/
def scanUniformDecos : List OpDecorateInfo → Option Nat × Option Nat →
    Option Nat × Option Nat
  | [], acc => acc
  | d :: rest, (set, binding) =>
    if d.decoration = 33 then
      scanUniformDecos rest
        (set, match d.extra_operands[0]? with | some b => some b | none => binding)
    else if d.decoration = 35 then
      scanUniformDecos rest
        ((match d.extra_operands[0]? with | some s => some s | none => set), binding)
    else scanUniformDecos rest (set, binding)

/-- The resource-kind mapping of `ShaderModule::get_uniforms`: storage
class 12 is a storage buffer; otherwise dispatch on the type entry
(defaulting to `Other` when the type id is unknown). -/
def uniformTypeOf (sm : ShaderModuleState) (type_id storage_class : Nat) : UniformType :=
  if storage_class = 12 then .storageBuffer
  else
    match (lookupA sm.types type_id).getD .other with
    | .pointer _ _ => .other
    | .strct _ => .uniformBuffer
    | .image _ _ _ _ _ sampled _ =>
      if sampled = 2 then .sampledImage else .storageBuffer
    | .sampler => .sampler
    | .sampledImage _ => .sampledImage
    | _ => .other

/-- The body of the `ShaderModule::get_uniforms` loop for one kept
variable: a missing Binding decoration is `Err(DecorationMissing(id))`; a
missing DescriptorSet decoration defaults the set to 0. -/
def uniformOfVar (sm : ShaderModuleState) (id type_id storage_class : Nat) :
    Outcome UniformInfoL :=
  let sb :=
    match lookupA sm.decorations id with
    | some decos => scanUniformDecos decos (none, none)
    | none => (none, none)
  match sb.2 with
  | none => .error (.decorationMissing id)
  | some binding =>
    .ok { binding, set := sb.1.getD 0,
          uniform_type := uniformTypeOf sm type_id storage_class,
          name := lookupA sm.names id }

/-- The storage classes `ShaderModule::get_uniforms` keeps:
UniformConstant (0), Uniform (2), StorageBuffer (12). -/
def keepUniformStorage (storage_class : Nat) : Bool :=
  storage_class == 0 || storage_class == 2 || storage_class == 12

/-- The `ShaderModule::get_uniforms`: process every kept variable in order,
propagating the first failure. -/
def shader_get_uniforms (sm : ShaderModuleState) : Outcome (List UniformInfoL) :=
  go sm.vars
where
  go : List (Nat × Nat × Nat) → Outcome (List UniformInfoL)
    | [] => .ok []
    | v :: rest =>
      if keepUniformStorage v.2.2 then
        Outcome.bind (uniformOfVar sm v.1 v.2.1 v.2.2) fun u =>
          Outcome.bind (go rest) fun tail => .ok (u :: tail)
      else go rest

/-! ## Specification-side definitions

These follow the wording of the specification's claims (not the source) and
exist only to be compared with the embedded code. -/

/-- Spec-side: the plain, unbounded product of `element_count` over every
`Array` layer reached by unwrapping `Pointer` and `Array` wrappers, with
`RuntimeArray` and every non-array type contributing a factor of 1. -/
def specArrayLayerProduct : TypeInfo → Nat
  | .array element_type element_count =>
    element_count * specArrayLayerProduct element_type
  | .pointer ptr_type => specArrayLayerProduct ptr_type
  | _ => 1

/-- Spec-side: the greatest `field_offset` in a member list (0 when empty). -/
def structMaxOffset (members : List StructMemberInfo) : Nat :=
  (members.map StructMemberInfo.field_offset).foldr max 0

/-- Spec-side: the first member attaining the maximal offset
("the member with the greatest field_offset, ties broken by first-seen"). -/
def firstMaxMember (members : List StructMemberInfo) : Option StructMemberInfo :=
  members.find? (fun m => m.field_offset == structMaxOffset members)

/-! ## Concrete test modules and buffers -/

/-- The specification §8 round-trip module: `OpTypeFloat %1 32`,
`OpTypeVector %2 %1 3`, `OpTypeStruct %3 %2`,
`OpMemberDecorate %3 0 Offset 0`, `OpMemberName %3 0 "position"`
(words of "position" are 0x69736f70 0x6e6f6974 0), `OpName %3 "Vertex"`
(words 0x74726556 0x00007865). -/
def vertexModule : Module :=
  ⟨"TestVert",
   [⟨22, [1, 32]⟩,
    ⟨23, [2, 1, 3]⟩,
    ⟨30, [3, 2]⟩,
    ⟨72, [3, 0, 35, 0]⟩,
    ⟨6, [3, 0, 0x69736f70, 0x6e6f6974, 0]⟩,
    ⟨5, [3, 0x74726556, 0x00007865]⟩]⟩

/-- A module whose id 1 is a struct declaration with one declared member
(type id 2, a void type) and no `OpName` instruction for id 1. -/
def c1m : Module := ⟨"M", [⟨30, [1, 2]⟩, ⟨19, [2]⟩]⟩

/-- A 24-byte buffer with a valid header (magic 0x07230203, version 0)
whose single instruction word is 0, i.e. `word_count` 0. -/
def c2bytes : List Nat :=
  [0x03, 0x02, 0x23, 0x07, 0, 0, 0, 0, 0, 0, 0, 0,
   0, 0, 0, 0, 0, 0, 0, 0, 0, 0, 0, 0]

/-- A module with a uniform-storage variable (`OpVariable`, type id 1,
result id 2, storage class Uniform = 2) carrying no decorations at all,
its type id resolving to a 32-bit float. -/
def c2m : Module := ⟨"M", [⟨22, [1, 32]⟩, ⟨59, [1, 2, 2]⟩]⟩

/-- A 24-byte buffer with a valid header whose single instruction word
0x00030000 declares `word_count` 3 with no operand words following. -/
def c3bytes : List Nat :=
  [0x03, 0x02, 0x23, 0x07, 0, 0, 0, 0, 0, 0, 0, 0,
   0, 0, 0, 0, 0, 0, 0, 0, 0, 0, 3, 0]

/-- A module with an Input-storage variable (type id 1 = 32-bit float,
result id 2, storage class Input = 1) that has an `OpName` ("a") but no
decoration at all — in particular no `Location`. -/
def c4m : Module := ⟨"M", [⟨22, [1, 32]⟩, ⟨59, [1, 2, 1]⟩, ⟨5, [2, 97]⟩]⟩

/-- A module with a kept uniform variable (`OpTypeSampler %1`,
`OpVariable` type 1 id 2 storage UniformConstant = 0) that has a Binding
decoration (33, value 5) but no DescriptorSet decoration. -/
def c5m : Module := ⟨"M", [⟨26, [1]⟩, ⟨59, [1, 2, 0]⟩, ⟨71, [2, 33, 5]⟩]⟩

/-- A module declaring `OpTypeSampler %1`, `OpTypeArray %2 %1 1048576`,
`OpTypeArray %3 %2 1048576`: two nested array layers of 2^20 elements. -/
def c7m : Module :=
  ⟨"M", [⟨26, [1]⟩, ⟨28, [2, 1, 1048576]⟩, ⟨28, [3, 2, 1048576]⟩]⟩

/-- The type id 3 of `c7m` resolves to. -/
def c7ty : TypeInfo := .array (.array .sampler 1048576) 1048576

/-- A 20-byte buffer with a valid magic word and version word 0xFFFFFFFF
(greater than any supported version), and no instructions. -/
def c8bytes : List Nat :=
  [0x03, 0x02, 0x23, 0x07, 255, 255, 255, 255, 0, 0, 0, 0,
   0, 0, 0, 0, 0, 0, 0, 0]

/-- The `ShaderModule` state with one kept uniform variable (id 3, storage
Uniform = 2) whose only decoration is 35 with value 7 — no Binding. -/
def sm5a : ShaderModuleState :=
  { version := 0x10000, generator := 0, bound := 9, schema := 0,
    entry_points := [], member_decorations := [],
    decorations := [(3, [⟨3, 35, [7]⟩])],
    vars := [(3, 9, 2)], names := [], types := [] }

/-- The `ShaderModule` state with one kept uniform variable (id 4, storage
UniformConstant = 0) whose only decoration is Binding = 33 with value 5 —
no DescriptorSet. -/
def sm5b : ShaderModuleState :=
  { version := 0x10000, generator := 0, bound := 9, schema := 0,
    entry_points := [], member_decorations := [],
    decorations := [(4, [⟨4, 33, [5]⟩])],
    vars := [(4, 9, 0)], names := [], types := [] }

/-- The `ShaderModule` state with one Input variable (id 2, type 9 = pointer to
7 = 32-bit float) whose only decoration is Binding = 33 — no Location. -/
def sm4 : ShaderModuleState :=
  { version := 0x10000, generator := 0, bound := 9, schema := 0,
    entry_points := [], member_decorations := [],
    decorations := [(2, [⟨2, 33, [0]⟩])],
    vars := [(2, 9, 1)], names := [],
    types := [(9, .pointer 1 7), (7, .float 32)] }

/-! ## C10 — `calc_size` on `Bool` -/

/-- C10: `calc_size(TypeInfo::Bool) = Some(1)`: the size calculator assigns
the `Bool` scalar a flat byte size of 1 even though `Bool` carries no width
field — it is neither sized by a width nor rejected with `None`. -/
theorem c10_calc_size_bool : calc_size TypeInfo.bool = some 1 := by
  simp [calc_size]

/-! ## C2 — panics on untrusted input -/

/-- C2 (code bug): the claim (and the spec) say decoding and the reflection
queries never panic on untrusted input shape, but `Module::from_code`
executes `panic!("Word count should not be 0")` on a zero `word_count`,
and `Module::get_uniform_info` executes `panic!("TODO: add error type")`
for a kept uniform variable whose decorations are missing. -/
theorem c2_panics :
    module_from_code "Shader" c2bytes = .panic "Word count should not be 0" ∧
    module_get_uniform_info 3 c2m = .panic "TODO: add error type" := by
  constructor
  · simp only [module_from_code, c2bytes, bytesToWords, MAGIC_NUMBER, SPIRV_VERSION]
    norm_num
    simp [decodeInstructions]
  · rfl

/-! ## C8 — version validation -/

/-- C8 (code bug): the claim says decoding fails with `InvalidVersion`
whenever the version word exceeds the supported maximum.  The decoder
compiled into the crate, `ShaderModule::from_code`, accepts a buffer whose
version word is 0xFFFFFFFF (`result.rs` defines no `InvalidVersion`
variant at all); only the orphaned `Module::from_code` performs the check,
constructing the nonexistent variant. -/
theorem c8_version_check :
    (shader_from_code c8bytes).isOk = true ∧
    module_from_code "Shader" c8bytes = .error (.invalidVersion 4294967295 SPIRV_VERSION) ∧
    4294967295 > SPIRV_VERSION := by
  refine ⟨?_, ?_, by decide⟩
  · simp only [shader_from_code, c8bytes, bytesToWords]
    norm_num
    simp [shaderDecodeLoop]
  · simp only [module_from_code, c8bytes, bytesToWords, MAGIC_NUMBER, SPIRV_VERSION]
    norm_num

/-! ## C9 — module naming from the file name -/

/-- C9 counterexample: the claim says all dot-separated segments of the
base name are capitalized and concatenated, but `from_file` uses only
`parts[0]` and `parts[1]`: for base name "shader.vert.spv" the module name
is "ShaderVert", not "ShaderVertSpv". -/
theorem c9_counterexample :
    module_name_from_file_name "shader.vert.spv" = .ok "ShaderVert" ∧
    "ShaderVert" ≠ "ShaderVertSpv" := ⟨rfl, by decide⟩

/-- C9 amended: the module name is the concatenation of the
capitalizations of the FIRST TWO dot-separated segments only (any further
segments are dropped), and a base name with no dot panics on the
`parts[1]` index. -/
theorem c9_amended :
    (∀ (s : String) (p1 p2 : List Char) (rest : List (List Char)),
       splitOnDot s.data = p1 :: p2 :: rest →
       module_name_from_file_name s =
         .ok (String.mk (capitalize_first p1 ++ capitalize_first p2))) ∧
    (∀ (s : String) (p1 : List Char), splitOnDot s.data = [p1] →
       module_name_from_file_name s = .panic "index out of bounds") := by
  constructor
  · intro s p1 p2 rest h
    simp [module_name_from_file_name, h]
  · intro s p1 h
    simp [module_name_from_file_name, h]

/-- C9 witness: the amended naming rule at the concrete base name "a.b". -/
theorem c9_witness :
    module_name_from_file_name "a.b" =
      .ok (String.mk (capitalize_first ['a'] ++ capitalize_first ['b'])) :=
  c9_amended.1 "a.b" ['a'] ['b'] [] rfl

/-! ## C7 — descriptor counts -/

/-- Helper fact: `descriptor_count_from_type` agrees with the spec's array-layer product
modulo `2^32` (the `u32` wrap applied by the Rust multiplication). -/
theorem descriptor_count_eq_spec_mod :
    ∀ t : TypeInfo, descriptor_count_from_type t = specArrayLayerProduct t % U32M
  | .void => rfl
  | .bool => rfl
  | .int _ _ _ => rfl
  | .float _ _ => rfl
  | .vec _ _ _ => rfl
  | .mat _ _ _ => rfl
  | .strct _ _ => rfl
  | .pointer pt => by
    rw [descriptor_count_from_type, specArrayLayerProduct,
      descriptor_count_eq_spec_mod pt]
  | .image _ _ _ _ _ _ _ => rfl
  | .sampler => rfl
  | .sampledImage _ => rfl
  | .array et ec => by
    rw [descriptor_count_from_type, specArrayLayerProduct,
      descriptor_count_eq_spec_mod et, Nat.mul_mod, Nat.mod_mod_of_dvd _ dvd_rfl,
      ← Nat.mul_mod]
  | .runtimeArray _ => rfl

/-- C7 counterexample: a resolvable nested-array type (two layers of 2^20
elements) whose spec-side product 2^40 wraps to 0 in the `u32`
computation, so `descriptor_count` does not equal the plain product. -/
theorem c7_counterexample :
    get_type_from_id 5 c7m 3 = .ok c7ty ∧
    descriptor_count_from_type c7ty = 0 ∧
    specArrayLayerProduct c7ty = 1099511627776 := by
  refine ⟨rfl, by decide, by decide⟩

/-- C7 amended: `descriptor_count` equals the product of `element_count`
over every `Array` layer reached by unwrapping `Pointer`/`Array` wrappers
(with `RuntimeArray` and non-arrays contributing 1) **reduced modulo
2^32**; in particular `Pointer -> Array(4, Struct)` yields 4. -/
theorem c7_amended :
    (∀ t : TypeInfo,
       descriptor_count_from_type t = specArrayLayerProduct t % U32M) ∧
    descriptor_count_from_type (.pointer (.array (.strct "S" []) 4)) = 4 :=
  ⟨descriptor_count_eq_spec_mod, by decide⟩

/-! ## C6 — the size calculator -/

/-- The running-best form of the struct-member scan, started from a current
best member. -/
def pickBestFrom (a : StructMemberInfo) : List StructMemberInfo → StructMemberInfo
  | [] => a
  | m :: rest =>
    if m.field_offset > a.field_offset then pickBestFrom m rest
    else pickBestFrom a rest

theorem pickLastMember_foldl_eq (l : List StructMemberInfo) (a : StructMemberInfo) :
    l.foldl
      (fun last_member member =>
        match last_member with
        | some lm =>
          if member.field_offset > lm.field_offset then some member else some lm
        | none => some member) (some a) = some (pickBestFrom a l) := by
  induction l generalizing a with
  | nil => rfl
  | cons m rest ih =>
    simp only [List.foldl_cons, pickBestFrom]
    by_cases h : m.field_offset > a.field_offset
    · rw [if_pos h, if_pos h]; exact ih m
    · rw [if_neg h, if_neg h]; exact ih a

theorem structMaxOffset_cons (a : StructMemberInfo) (l : List StructMemberInfo) :
    structMaxOffset (a :: l) = max a.field_offset (structMaxOffset l) := rfl

theorem le_structMaxOffset_cons (a : StructMemberInfo) (l : List StructMemberInfo) :
    a.field_offset ≤ structMaxOffset (a :: l) := by
  rw [structMaxOffset_cons]; exact le_max_left _ _

theorem pickBestFrom_eq_firstMax (l : List StructMemberInfo) :
    ∀ a, some (pickBestFrom a l) = firstMaxMember (a :: l) := by
  induction l with
  | nil =>
    intro a
    simp [pickBestFrom, firstMaxMember, structMaxOffset, List.find?]
  | cons m rest ih =>
    intro a
    by_cases h : m.field_offset > a.field_offset
    · rw [show pickBestFrom a (m :: rest) = pickBestFrom m rest by
        simp [pickBestFrom, h], ih m]
      unfold firstMaxMember
      have hmle : m.field_offset ≤ structMaxOffset (m :: rest) :=
        le_structMaxOffset_cons m rest
      have hmax : structMaxOffset (a :: m :: rest) = structMaxOffset (m :: rest) := by
        rw [structMaxOffset_cons]
        exact Nat.max_eq_right (le_trans (le_of_lt h) hmle)
      rw [hmax]
      have ha : (a.field_offset == structMaxOffset (m :: rest)) = false := by
        have : a.field_offset < structMaxOffset (m :: rest) := lt_of_lt_of_le h hmle
        simp [Nat.ne_of_lt this]
      simp only [List.find?_cons, ha]
    · rw [show pickBestFrom a (m :: rest) = pickBestFrom a rest by
        simp [pickBestFrom, h], ih a]
      unfold firstMaxMember
      have hma : m.field_offset ≤ a.field_offset := le_of_not_lt h
      have hmax : structMaxOffset (a :: m :: rest) = structMaxOffset (a :: rest) := by
        rw [structMaxOffset_cons, structMaxOffset_cons, structMaxOffset_cons,
          ← Nat.max_assoc, Nat.max_eq_left hma]
      rw [hmax]
      have haX : a.field_offset ≤ structMaxOffset (a :: rest) :=
        le_structMaxOffset_cons a rest
      by_cases hfa : a.field_offset = structMaxOffset (a :: rest)
      · simp only [List.find?_cons, show (a.field_offset == structMaxOffset (a :: rest)) = true
          by simpa using hfa]
      · have ham : (a.field_offset == structMaxOffset (a :: rest)) = false := by
          simpa using hfa
        have hmm : (m.field_offset == structMaxOffset (a :: rest)) = false := by
          have : m.field_offset ≠ structMaxOffset (a :: rest) := by omega
          simpa using this
        simp only [List.find?_cons, ham, hmm]

/-- The struct-member scan of `calc_size` selects exactly the first member
attaining the maximal `field_offset`. -/
theorem pickLastMember_eq_firstMax (ms : List StructMemberInfo) (h : ms ≠ []) :
    pickLastMember ms = firstMaxMember ms := by
  match ms with
  | [] => exact absurd rfl h
  | a :: l =>
    unfold pickLastMember
    rw [List.foldl_cons]
    exact (pickLastMember_foldl_eq l a).trans (pickBestFrom_eq_firstMax l a)

/-- C6 counterexample: the claim's plain-arithmetic reading fails on a
representable `u32` value: for `Vec(Int width 0xFFFFFFFF, count 16)` the
code computes `(0xFFFFFFFF / 8) * 16 mod 2^32 = 0xFFFFFFF0`, while
component-size times component-count is `0x1FFFFFFF0`. -/
theorem c6_counterexample :
    calc_size (.vec "v" (.int "int" 4294967295 true) 16) = some 4294967280 ∧
    4294967295 / 8 * 16 ≠ 4294967280 := by
  constructor
  · simp [calc_size, U32M]
  · decide

/-- C6 amended: the size equations hold with the `u32` products and sums
reduced modulo 2^32 (scalars are exact): `Int`/`Float` of width `w` have
size `w / 8`; `Vec`/`Mat` multiply the component/column size by the count
mod 2^32; an empty struct has size 0; a non-empty struct is sized from the
first member attaining the greatest `field_offset` (first-seen wins ties,
member order need not follow offsets), adding that member's own size to its
offset mod 2^32; and a struct with one member at offset 4 of size 4 has
size 8. -/
theorem c6_amended :
    (∀ (nm : String) (w : Nat) (sg : Bool), calc_size (.int nm w sg) = some (w / 8)) ∧
    (∀ (nm : String) (w : Nat), calc_size (.float nm w) = some (w / 8)) ∧
    (∀ (nm : String) (ct : TypeInfo) (cc s : Nat), calc_size ct = some s →
       calc_size (.vec nm ct cc) = some (s * cc % U32M)) ∧
    (∀ (nm : String) (ct : TypeInfo) (cc s : Nat), calc_size ct = some s →
       calc_size (.mat nm ct cc) = some (s * cc % U32M)) ∧
    (∀ nm : String, calc_size (.strct nm []) = some 0) ∧
    (∀ ms : List StructMemberInfo, ms ≠ [] → pickLastMember ms = firstMaxMember ms) ∧
    (∀ (nm : String) (ms : List StructMemberInfo) (lm : StructMemberInfo) (s : Nat),
       pickLastMember ms = some lm → calc_size lm.field_type = some s →
       calc_size (.strct nm ms) = some ((lm.field_offset + s) % U32M)) ∧
    calc_size (.strct "s" [.mk (.int "int" 32 true) 4 "x"]) = some 8 := by
  refine ⟨?_, ?_, ?_, ?_, ?_, pickLastMember_eq_firstMax, ?_, ?_⟩
  · intro nm w sg; simp [calc_size]
  · intro nm w; simp [calc_size]
  · intro nm ct cc s h; simp [calc_size, h]
  · intro nm ct cc s h; simp [calc_size, h]
  · intro nm; simp [calc_size, pickLastMember]
  · intro nm ms lm s h1 h2
    rw [calc_size]
    split
    · rename_i heq
      rw [h1] at heq; cases heq
    · rename_i lm' heq
      rw [h1] at heq
      injection heq with heq2
      subst heq2
      simp [h2]
  · simp [calc_size, pickLastMember, U32M]

/-- C6 witness: the amended vector rule applied at `Vec(Float 32, 3)`
(size 12) and the struct rules at the one-member examples. -/
theorem c6_witness :
    calc_size (.vec "vec3" (.float "float" 32) 3) = some 12 := by
  have h := c6_amended.2.2.1 "vec3" (.float "float" 32) 3 4 (by simp [calc_size])
  simpa [U32M] using h

/-! ## C1 — struct resolution returns exactly the declared member count -/

theorem findTypeInst_spec (tid : Nat) :
    ∀ (insts : List RawInstruction) (i : RawInstruction),
      findTypeInst tid insts = some i →
      (∃ tl, i.operands = tid :: tl) ∧ isTypeDispatchOpcode i.opcode = true := by
  intro insts
  induction insts with
  | nil => intro i h; cases h
  | cons j rest ih =>
    intro i h
    rw [findTypeInst] at h
    match hops : j.operands with
    | [] => rw [hops] at h; exact ih i h
    | op0 :: tl =>
      rw [hops] at h
      simp only [] at h
      by_cases hc : op0 = tid ∧ isTypeDispatchOpcode j.opcode
      · rw [if_pos hc] at h
        injection h with h
        subst h
        exact ⟨⟨tl, by rw [hops, hc.1]⟩, hc.2⟩
      · rw [if_neg hc] at h; exact ih i h

/-- A successful member join produces at most as many members as declared
(the `filter_map` can only drop). -/
theorem joinMembers_length_ok_le (resolve : Nat → Outcome TypeInfo) (m : Module)
    (sid : Nat) :
    ∀ (ids : List Nat) (idx : Nat) (ms : List StructMemberInfo),
      joinMembers resolve m sid ids idx = .ok ms → ms.length ≤ ids.length := by
  intro ids
  induction ids with
  | nil =>
    intro idx ms h
    rw [joinMembers] at h
    injection h with h
    subst h
    simp
  | cons tid0 rest ih =>
    intro idx ms h
    rw [joinMembers] at h
    simp only [Outcome.monad_bind_eq] at h
    cases hn : findMemberName m sid idx with
    | error e => rw [hn] at h; simp only [Outcome.bind_error] at h; cases h
    | panic s => rw [hn] at h; simp only [Outcome.bind_panic] at h; cases h
    | ok name? =>
      rw [hn] at h
      simp only [Outcome.bind_ok] at h
      cases hr : resolve tid0 with
      | panic s => rw [hr] at h; simp only [Outcome.bind_panic] at h; cases h
      | error e =>
        rw [hr] at h
        simp only [Outcome.bind_ok] at h
        cases ho : findMemberOffset m sid idx with
        | error e2 => rw [ho] at h; simp only [Outcome.bind_error] at h; cases h
        | panic s => rw [ho] at h; simp only [Outcome.bind_panic] at h; cases h
        | ok off? =>
          rw [ho] at h
          simp only [Outcome.bind_ok] at h
          cases ht : joinMembers resolve m sid rest (idx + 1) with
          | error e2 => rw [ht] at h; simp only [Outcome.bind_error] at h; cases h
          | panic s => rw [ht] at h; simp only [Outcome.bind_panic] at h; cases h
          | ok tail =>
            rw [ht] at h
            simp only [Outcome.bind_ok] at h
            have htail := ih (idx + 1) tail ht
            match name?, off? with
            | some nm, some off => injection h with h; subst h; simp; omega
            | some nm, none => injection h with h; subst h; simp; omega
            | none, some off => injection h with h; subst h; simp; omega
            | none, none => injection h with h; subst h; simp; omega
      | ok ty =>
        rw [hr] at h
        simp only [Outcome.bind_ok] at h
        cases ho : findMemberOffset m sid idx with
        | error e2 => rw [ho] at h; simp only [Outcome.bind_error] at h; cases h
        | panic s => rw [ho] at h; simp only [Outcome.bind_panic] at h; cases h
        | ok off? =>
          rw [ho] at h
          simp only [Outcome.bind_ok] at h
          cases ht : joinMembers resolve m sid rest (idx + 1) with
          | error e2 => rw [ht] at h; simp only [Outcome.bind_error] at h; cases h
          | panic s => rw [ht] at h; simp only [Outcome.bind_panic] at h; cases h
          | ok tail =>
            rw [ht] at h
            simp only [Outcome.bind_ok] at h
            have htail := ih (idx + 1) tail ht
            match name?, off? with
            | some nm, some off => injection h with h; subst h; simp; omega
            | some nm, none => injection h with h; subst h; simp; omega
            | none, some off => injection h with h; subst h; simp; omega
            | none, none => injection h with h; subst h; simp; omega

/-- C1 amended: for a type id whose defining instruction (the first
dispatchable instruction with that result id) is a struct declaration with
`n ≥ 1` declared member-type operands, resolution never returns anything
but a `Struct` with exactly `n` members; a missing struct name fails with
`NameMissing`, and a successful member join that is short of `n` members
fails with `InvalidType`.  (Malformed auxiliary instructions or exhausted
recursion depth abort with a panic instead, which is never an `ok`.) -/
theorem c1_struct_members_exact (m : Module) (tid n : Nat) (i : RawInstruction)
    (hfind : findTypeInst tid m.instructions = some i)
    (hop : i.opcode = OP_TYPE_STRUCT)
    (hlen : i.operands.length = n + 1)
    (hn : 1 ≤ n) :
    (∀ (fuel : Nat) (t : TypeInfo), get_type_from_id fuel m tid = .ok t →
       ∃ nm ms, t = .strct nm ms ∧ ms.length = n) ∧
    (∀ f : Nat, get_type_name_from_id m tid = .ok none →
       get_type_from_id (f + 1) m tid = .error (.nameMissing tid)) ∧
    (∀ (f : Nat) (nm : String) (ms : List StructMemberInfo),
       get_type_name_from_id m tid = .ok (some nm) →
       joinMembers (fun id => get_type_from_id f m id) m tid (i.operands.drop 1) 0 = .ok ms →
       ms.length < n →
       get_type_from_id (f + 1) m tid = .error .invalidType) := by
  obtain ⟨⟨tl, hops⟩, _⟩ := findTypeInst_spec tid m.instructions i hfind
  have hgt1 : ¬ i.operands.length ≤ 1 := by rw [hlen]; omega
  have harm : ∀ f : Nat, get_type_from_id (f + 1) m tid =
      Outcome.bind (get_type_name_from_id m tid) (fun nm =>
        match nm with
        | none => .error (.nameMissing tid)
        | some name =>
          if i.operands.length ≤ 1 then .ok (.strct name [])
          else
            Outcome.bind
              (joinMembers (fun id => get_type_from_id f m id) m tid (i.operands.drop 1) 0)
              (fun members =>
                if members.length < i.operands.length - 1 then .error .invalidType
                else .ok (.strct name members))) := by
    intro f
    show scanInsts (fun id => get_type_from_id f m id) m tid m.instructions = _
    rw [scanInsts_eq_find, hfind]
    simp only [dispatchInst, hop, OP_TYPE_VOID, OP_TYPE_BOOL, OP_TYPE_INT,
      OP_TYPE_FLOAT, OP_TYPE_VECTOR, OP_TYPE_MATRIX, OP_TYPE_STRUCT,
      OP_TYPE_POINTER, OP_TYPE_IMAGE, OP_TYPE_SAMPLER, OP_TYPE_SAMPLED_IMAGE,
      OP_TYPE_ARRAY, OP_TYPE_RUNTIME_ARRAY]
    norm_num
    simp only [hops, getOp, List.getElem?_cons_zero, Outcome.monad_bind_eq,
      Outcome.bind_ok, Option.getD_some]
  have hdrop : (i.operands.drop 1).length = n := by
    rw [List.length_drop, hlen]
    omega
  refine ⟨?_, ?_, ?_⟩
  · intro fuel t h
    match fuel with
    | 0 => rw [get_type_from_id] at h; cases h
    | f + 1 =>
      rw [harm f] at h
      cases hname : get_type_name_from_id m tid with
      | error e => rw [hname] at h; cases h
      | panic s => rw [hname] at h; cases h
      | ok nm? =>
        rw [hname] at h
        simp only [Outcome.bind_ok] at h
        match nm? with
        | none => simp only [] at h; cases h
        | some name =>
          simp only [] at h
          rw [if_neg hgt1] at h
          cases hjoin : joinMembers (fun id => get_type_from_id f m id) m tid
              (i.operands.drop 1) 0 with
          | error e => rw [hjoin] at h; cases h
          | panic s => rw [hjoin] at h; cases h
          | ok members =>
            rw [hjoin] at h
            simp only [Outcome.bind_ok] at h
            by_cases hshort : members.length < i.operands.length - 1
            · rw [if_pos hshort] at h; cases h
            · rw [if_neg hshort] at h
              injection h with h
              subst h
              refine ⟨name, members, rfl, ?_⟩
              have hle := joinMembers_length_ok_le _ m tid (i.operands.drop 1) 0
                members hjoin
              rw [hdrop] at hle
              rw [hlen] at hshort
              omega
  · intro f hname
    rw [harm f, hname]
    rfl
  · intro f nm ms hname hjoin hshort
    rw [harm f, hname]
    simp only [Outcome.bind_ok]
    rw [if_neg hgt1, hjoin]
    simp only [Outcome.bind_ok]
    rw [if_pos (show ms.length < i.operands.length - 1 by rw [hlen]; omega)]

/-- C1 counterexample: for `c1m` (struct id 1 with one declared member and
no name instruction) the claim's dichotomy fails: resolution returns
neither a `Struct` value nor `InvalidType` but `NameMissing(1)`. -/
theorem c1_counterexample :
    get_type_from_id 3 c1m 1 = .error (.nameMissing 1) ∧
    Err.nameMissing 1 ≠ Err.invalidType ∧
    (get_type_from_id 3 c1m 1).isOk = false :=
  ⟨rfl, by decide, rfl⟩

/-- C1 witness: the amended theorem applied to the §8 round-trip module,
whose struct id 3 declares one member: the resolved value is a `Struct`
with exactly one member. -/
theorem c1_witness :
    ∃ nm ms, (TypeInfo.strct "Vertex"
        [.mk (.vec "vec3" (.float "float" 32) 3) 0 "position"]) = .strct nm ms ∧
      ms.length = 1 :=
  (c1_struct_members_exact vertexModule 3 1 ⟨30, [3, 2]⟩ rfl rfl rfl
    (by decide)).1 9 _ rfl

/-! ## C3 — decoder instruction boundaries -/

/-- In the `ok` case the `module.rs` decode loop is exactly inverted by
re-encoding each `RawInstruction` as its leading word
(`opcode + (operand count + 1) <<< 16`) followed by its operands: every
decoded instruction carries exactly `word_count - 1` operand words and the
cursor advances by `word_count`. -/
theorem decodeInstructions_roundtrip :
    ∀ (body : List Nat) (insts : List RawInstruction),
      decodeInstructions body = .ok insts →
      body = insts.flatMap
        (fun i => (i.opcode + 65536 * (i.operands.length + 1)) :: i.operands)
  | [], insts, h => by
    rw [decodeInstructions] at h
    injection h with h
    subst h
    rfl
  | w :: rest, insts, h => by
    rw [decodeInstructions] at h
    by_cases h0 : w / 65536 = 0
    · rw [if_pos h0] at h; cases h
    · rw [if_neg h0] at h
      by_cases h1 : rest.length < w / 65536 - 1
      · rw [if_pos h1] at h; cases h
      · rw [if_neg h1] at h
        cases htail : decodeInstructions (rest.drop (w / 65536 - 1)) with
        | error e => rw [htail] at h; cases h
        | panic s => rw [htail] at h; cases h
        | ok tail =>
          rw [htail] at h
          simp only [Outcome.bind_ok] at h
          injection h with h
          subst h
          have ihr := decodeInstructions_roundtrip (rest.drop (w / 65536 - 1)) tail htail
          have htake : (rest.take (w / 65536 - 1)).length = w / 65536 - 1 := by
            rw [List.length_take]; omega
          simp only [List.flatMap_cons, ← ihr, List.cons_append]
          rw [htake, show w / 65536 - 1 + 1 = w / 65536 by omega,
            Nat.mod_add_div, List.take_append_drop]
termination_by body _ _ => body.length
decreasing_by simp; omega

/-- Once the header checks pass, the `module.rs` decode loop never returns
a typed error: its only failure mode is a panic. -/
theorem decodeInstructions_never_error :
    ∀ body : List Nat,
      (∃ insts, decodeInstructions body = .ok insts) ∨
      (∃ s, decodeInstructions body = .panic s)
  | [] => by
    rw [decodeInstructions]
    exact .inl ⟨[], rfl⟩
  | w :: rest => by
    rw [decodeInstructions]
    by_cases h0 : w / 65536 = 0
    · rw [if_pos h0]
      exact .inr ⟨_, rfl⟩
    · rw [if_neg h0]
      by_cases h1 : rest.length < w / 65536 - 1
      · rw [if_pos h1]
        exact .inr ⟨_, rfl⟩
      · rw [if_neg h1]
        rcases decodeInstructions_never_error (rest.drop (w / 65536 - 1)) with
          ⟨insts, hi⟩ | ⟨s, hs⟩
        · rw [hi]
          exact .inl ⟨_, rfl⟩
        · rw [hs]
          exact .inr ⟨_, rfl⟩
termination_by body => body.length
decreasing_by simp; omega

/-- C3 (code bug): on an instruction whose `word_count` overruns the
buffer, `Module::from_code` panics (`chunks.next().unwrap()`) rather than
failing with `InvalidOperandEnd` — the typed error the claim names is
produced only by `ShaderModule::from_code` (conjunct 2, with payload
`(total word count, word_count) = (6, 3)`).  The rest of the claim holds:
a decoded `RawInstruction` carries exactly `word_count - 1` operand words
and the cursor advances by `word_count` (conjunct 3), and the loop has no
typed-error exit at all (conjunct 4). -/
theorem c3_decoder :
    module_from_code "Shader" c3bytes = .panic "Option::unwrap on None" ∧
    shader_from_code c3bytes = .error (.invalidOperandEnd 6 3) ∧
    (∀ (body : List Nat) (insts : List RawInstruction),
       decodeInstructions body = .ok insts →
       body = insts.flatMap
         (fun i => (i.opcode + 65536 * (i.operands.length + 1)) :: i.operands)) ∧
    (∀ body : List Nat,
       (∃ insts, decodeInstructions body = .ok insts) ∨
       (∃ s, decodeInstructions body = .panic s)) := by
  refine ⟨?_, ?_, decodeInstructions_roundtrip, decodeInstructions_never_error⟩
  · simp only [module_from_code, c3bytes, bytesToWords, MAGIC_NUMBER, SPIRV_VERSION]
    norm_num
    simp [decodeInstructions]
  · simp only [shader_from_code, c3bytes, bytesToWords]
    norm_num
    simp [shaderDecodeLoop]

/-- C3 witness: the round-trip conjunct applied to the concrete one-word
body `[65555]` (`word_count` 1, opcode 19, no operands). -/
theorem c3_witness :
    [65555] = ([⟨19, []⟩] : List RawInstruction).flatMap
      (fun i => (i.opcode + 65536 * (i.operands.length + 1)) :: i.operands) :=
  c3_decoder.2.2.1 [65555] [⟨19, []⟩] (by simp [decodeInstructions])

/-! ## C4 — input variables without a Location decoration -/

theorem findDecoExtra0_of_absent (code : Nat) :
    ∀ decos : List OpDecorateInfo, (∀ d ∈ decos, d.decoration ≠ code) →
      findDecoExtra0 code decos = .ok none := by
  intro decos
  induction decos with
  | nil => intro _; rfl
  | cons d rest ih =>
    intro h
    rw [findDecoExtra0, if_neg (h d (List.mem_cons_self d rest))]
    exact ih fun d2 hd2 => h d2 (List.mem_cons_of_mem d hd2)

theorem shader_get_inputs_go_ok (fuel : Nat) (sm : ShaderModuleState) :
    ∀ (ps : List (Nat × Nat)) (l : List ShaderIoInfoL),
      shader_get_inputs.go fuel sm ps = .ok l →
      ∀ p ∈ ps, (processInput fuel sm p).isOk = true := by
  intro ps
  induction ps with
  | nil => intro l _ p hp; cases hp
  | cons q rest ih =>
    intro l h p hp
    rw [shader_get_inputs.go] at h
    cases hq : processInput fuel sm q with
    | error e => rw [hq] at h; cases h
    | panic s => rw [hq] at h; cases h
    | ok info =>
      rw [hq] at h
      simp only [Outcome.bind_ok] at h
      cases hrest : shader_get_inputs.go fuel sm rest with
      | error e => rw [hrest] at h; cases h
      | panic s => rw [hrest] at h; cases h
      | ok tail =>
        rcases List.mem_cons.mp hp with hpq | hpr
        · subst hpq; rw [hq]; rfl
        · exact ih tail hrest p hpr

/-- C4 counterexample: `c4m` has an Input-storage variable (id 2) with a
resolvable type and name but no `Location` decoration, and
`Module::get_inputs` silently omits it, returning the empty list with no
error — not the `LocationMissing` failure the claim requires. -/
theorem c4_counterexample :
    module_get_inputs 3 c4m = .ok [] ∧
    (get_type_from_id 3 c4m 1).isOk = true ∧
    get_type_name_from_id c4m 2 = .ok (some "a") ∧
    findDecorationValue c4m 2 DECORATION_LOCATION = .ok none :=
  ⟨rfl, rfl, rfl, rfl⟩

/-- C4 amended: the `LocationMissing` behavior the claim describes is that
of `ShaderModule::get_inputs` in `lib.rs`, and only for an Input variable
that survives the collection pass (known `Pointer` type) and has at least
one decoration: such a variable with no `Location` decoration makes
`processInput` fail with `LocationMissing(id)` (conjunct 1); a successful
extraction implies every collected variable processed successfully
(conjunct 2); and a returned input's location always comes from a
`Location` decoration, never a default (conjunct 3).
`Module::get_inputs` in `module.rs`, by contrast, silently omits such
variables (see the counterexample). -/
theorem c4_inputs_location :
    (∀ (fuel : Nat) (sm : ShaderModuleState) (id ptid : Nat)
       (decos : List OpDecorateInfo),
       lookupA sm.decorations id = some decos →
       (∀ d ∈ decos, d.decoration ≠ 30) →
       processInput fuel sm (id, ptid) = .error (.locationMissing id)) ∧
    (∀ (fuel : Nat) (sm : ShaderModuleState) (p : Nat × Nat)
       (l : List ShaderIoInfoL),
       shader_get_inputs fuel sm = .ok l → p ∈ collectInputIds sm →
       (processInput fuel sm p).isOk = true) ∧
    (∀ (fuel : Nat) (sm : ShaderModuleState) (p : Nat × Nat)
       (info : ShaderIoInfoL),
       processInput fuel sm p = .ok info →
       ∃ decos, lookupA sm.decorations p.1 = some decos ∧
         findDecoExtra0 30 decos = .ok (some info.location)) := by
  refine ⟨?_, ?_, ?_⟩
  · intro fuel sm id ptid decos hlk hno
    rw [processInput]
    simp only [hlk, findDecoExtra0_of_absent 30 decos hno, Outcome.bind_ok]
  · intro fuel sm p l h hp
    exact shader_get_inputs_go_ok fuel sm (collectInputIds sm) l h p hp
  · intro fuel sm p info h
    rw [processInput] at h
    cases hlk : lookupA sm.decorations p.1 with
    | none => rw [hlk] at h; cases h
    | some decos =>
      rw [hlk] at h
      simp only [] at h
      cases hloc : findDecoExtra0 30 decos with
      | error e => rw [hloc] at h; cases h
      | panic s => rw [hloc] at h; cases h
      | ok loc? =>
        rw [hloc] at h
        simp only [Outcome.bind_ok] at h
        match loc? with
        | none => simp only [] at h; cases h
        | some loc =>
          simp only [] at h
          cases hb : findDecoExtra0 33 decos with
          | error e => rw [hb] at h; cases h
          | panic s => rw [hb] at h; cases h
          | ok b? =>
            rw [hb] at h
            simp only [Outcome.bind_ok] at h
            cases hio : get_io_type_from_id fuel sm p.2 with
            | error e => rw [hio] at h; cases h
            | panic s => rw [hio] at h; cases h
            | ok io =>
              rw [hio] at h
              simp only [Outcome.bind_ok] at h
              injection h with h
              subst h
              exact ⟨decos, rfl, by rw [hloc]⟩

/-- C4 witness: the amended conjunct 1 at the concrete state `sm4`, whose
Input variable id 2 carries only a Binding decoration. -/
theorem c4_witness :
    processInput 3 sm4 (2, 7) = .error (.locationMissing 2) :=
  c4_inputs_location.1 3 sm4 2 7 [⟨2, 33, [0]⟩] rfl (by decide)

/-! ## C5 — binding mandatory, descriptor set defaulted -/

theorem scanUniformDecos_no_binding :
    ∀ (decos : List OpDecorateInfo) (acc : Option Nat × Option Nat),
      (∀ d ∈ decos, d.decoration ≠ 33) →
      (scanUniformDecos decos acc).2 = acc.2 := by
  intro decos
  induction decos with
  | nil => intro acc _; rfl
  | cons d rest ih =>
    intro acc h
    rw [scanUniformDecos, if_neg (h d (List.mem_cons_self d rest))]
    have hr : ∀ d2 ∈ rest, d2.decoration ≠ 33 :=
      fun d2 hd2 => h d2 (List.mem_cons_of_mem d hd2)
    by_cases h35 : d.decoration = 35
    · rw [if_pos h35]
      exact ih _ hr
    · rw [if_neg h35]
      exact ih _ hr

theorem scanUniformDecos_no_set :
    ∀ (decos : List OpDecorateInfo) (acc : Option Nat × Option Nat),
      (∀ d ∈ decos, d.decoration ≠ 35) →
      (scanUniformDecos decos acc).1 = acc.1 := by
  intro decos
  induction decos with
  | nil => intro acc _; rfl
  | cons d rest ih =>
    intro acc h
    rw [scanUniformDecos]
    have hr : ∀ d2 ∈ rest, d2.decoration ≠ 35 :=
      fun d2 hd2 => h d2 (List.mem_cons_of_mem d hd2)
    by_cases h33 : d.decoration = 33
    · rw [if_pos h33]
      exact ih _ hr
    · rw [if_neg h33, if_neg (h d (List.mem_cons_self d rest))]
      exact ih _ hr

/-- Helper fact: `uniformOfVar` has exactly two outcomes: a value, or
`DecorationMissing` for the variable's own id. -/
theorem uniformOfVar_shape (sm : ShaderModuleState) (id tid sc : Nat) :
    (∃ u, uniformOfVar sm id tid sc = .ok u) ∨
    uniformOfVar sm id tid sc = .error (.decorationMissing id) := by
  rw [uniformOfVar]
  cases hsb : (match lookupA sm.decorations id with
    | some decos => scanUniformDecos decos (none, none)
    | none => ((none : Option Nat), (none : Option Nat))).2 with
  | none => exact .inr rfl
  | some b => exact .inl ⟨_, rfl⟩

theorem shader_get_uniforms_go_shape (sm : ShaderModuleState) :
    ∀ vars : List (Nat × Nat × Nat),
      (shader_get_uniforms.go sm vars).isOk = true ∨
      ∃ id, shader_get_uniforms.go sm vars = .error (.decorationMissing id) := by
  intro vars
  induction vars with
  | nil => exact .inl rfl
  | cons v rest ih =>
    rw [shader_get_uniforms.go]
    by_cases hk : keepUniformStorage v.2.2
    · rw [if_pos hk]
      rcases uniformOfVar_shape sm v.1 v.2.1 v.2.2 with ⟨u, hu⟩ | hu
      · rw [hu]
        simp only [Outcome.bind_ok]
        rcases ih with hok | ⟨id, herr⟩
        · cases hgo : shader_get_uniforms.go sm rest with
          | error e => rw [hgo] at hok; cases hok
          | panic s => rw [hgo] at hok; cases hok
          | ok tail => exact .inl rfl
        · rw [herr]
          exact .inr ⟨id, rfl⟩
      · rw [hu]
        exact .inr ⟨v.1, rfl⟩
    · rw [if_neg hk]
      exact ih

theorem shader_get_uniforms_go_mem (sm : ShaderModuleState) :
    ∀ (vars : List (Nat × Nat × Nat)) (id tid sc : Nat),
      (id, tid, sc) ∈ vars → keepUniformStorage sc = true →
      (uniformOfVar sm id tid sc).isOk = false →
      (shader_get_uniforms.go sm vars).isOk = false := by
  intro vars
  induction vars with
  | nil => intro id tid sc h; cases h
  | cons v rest ih =>
    intro id tid sc hmem hk hnot
    rw [shader_get_uniforms.go]
    rcases List.mem_cons.mp hmem with hv | hv
    · subst hv
      rw [if_pos hk]
      cases hu : uniformOfVar sm id tid sc with
      | error e => rfl
      | panic s => rfl
      | ok u => rw [hu] at hnot; cases hnot
    · by_cases hkv : keepUniformStorage v.2.2
      · rw [if_pos hkv]
        cases hu : uniformOfVar sm v.1 v.2.1 v.2.2 with
        | error e => rfl
        | panic s => rfl
        | ok u =>
          simp only [Outcome.bind_ok]
          have := ih id tid sc hv hk hnot
          cases hgo : shader_get_uniforms.go sm rest with
          | error e => rfl
          | panic s => rfl
          | ok tail => rw [hgo] at this; cases this
      · rw [if_neg hkv]
        exact ih id tid sc hv hk hnot

/-- C5 counterexample: in `Module::get_uniform_info` (`module.rs`, cited by
the claim) a kept uniform variable whose id has a Binding decoration but no
DescriptorSet decoration does not get `set = 0`: the function panics
(`panic!("TODO: add error type")`), and a missing Binding decoration
likewise panics rather than failing with `DecorationMissing`. -/
theorem c5_counterexample :
    findDecorationValue c5m 2 DECORATION_BINDING = .ok (some 5) ∧
    findDecorationValue c5m 2 DECORATION_DESCRIPTOR_SET = .ok none ∧
    module_get_uniform_info 3 c5m = .panic "TODO: add error type" :=
  ⟨rfl, rfl, rfl⟩

/-- C5 amended: the claimed behavior is that of `ShaderModule::get_uniforms`
in `lib.rs`: for a kept variable (storage class in {0, 2, 12}), a missing
Binding decoration fails with `DecorationMissing(id)` (conjuncts 1 and 2,
with and without any decorations at all), a missing DescriptorSet
decoration is not an error and yields `set = 0` (conjunct 3), a kept
variable whose processing fails makes the whole extraction fail
(conjunct 4), and the only failure the extraction can produce is
`DecorationMissing` (conjunct 5).  `Module::get_uniform_info` in
`module.rs` panics in both missing-decoration cases instead (see the
counterexample). -/
theorem c5_uniform_decorations :
    (∀ (sm : ShaderModuleState) (id tid sc : Nat) (decos : List OpDecorateInfo),
       keepUniformStorage sc = true →
       lookupA sm.decorations id = some decos →
       (∀ d ∈ decos, d.decoration ≠ 33) →
       uniformOfVar sm id tid sc = .error (.decorationMissing id)) ∧
    (∀ (sm : ShaderModuleState) (id tid sc : Nat),
       keepUniformStorage sc = true →
       lookupA sm.decorations id = none →
       uniformOfVar sm id tid sc = .error (.decorationMissing id)) ∧
    (∀ (sm : ShaderModuleState) (id tid sc : Nat) (decos : List OpDecorateInfo)
       (u : UniformInfoL),
       lookupA sm.decorations id = some decos →
       (∀ d ∈ decos, d.decoration ≠ 35) →
       uniformOfVar sm id tid sc = .ok u → u.set = 0) ∧
    (∀ (sm : ShaderModuleState) (id tid sc : Nat),
       (id, tid, sc) ∈ sm.vars → keepUniformStorage sc = true →
       (uniformOfVar sm id tid sc).isOk = false →
       (shader_get_uniforms sm).isOk = false) ∧
    (∀ sm : ShaderModuleState,
       (shader_get_uniforms sm).isOk = true ∨
       ∃ id, shader_get_uniforms sm = .error (.decorationMissing id)) := by
  refine ⟨?_, ?_, ?_, ?_, ?_⟩
  · intro sm id tid sc decos _ hlk hno
    rw [uniformOfVar]
    simp only [hlk]
    have := scanUniformDecos_no_binding decos (none, none) hno
    rw [this]
  · intro sm id tid sc _ hlk
    rw [uniformOfVar]
    simp only [hlk]
  · intro sm id tid sc decos u hlk hno h
    rw [uniformOfVar] at h
    simp only [hlk] at h
    have hfst := scanUniformDecos_no_set decos (none, none) hno
    cases hsnd : (scanUniformDecos decos (none, none)).2 with
    | none => rw [hsnd] at h; cases h
    | some b =>
      rw [hsnd] at h
      injection h with h
      subst h
      simp [hfst]
  · intro sm id tid sc hmem hk hnot
    exact shader_get_uniforms_go_mem sm sm.vars id tid sc hmem hk hnot
  · intro sm
    exact shader_get_uniforms_go_shape sm sm.vars

/-- C5 witness: the amended conjuncts at the concrete states `sm5a`
(set decoration only: `DecorationMissing`) and `sm5b` (binding decoration
only: `set = 0`). -/
theorem c5_witness :
    uniformOfVar sm5a 3 9 2 = .error (.decorationMissing 3) ∧
    (UniformInfoL.mk 5 0 .other none).set = 0 :=
  ⟨c5_uniform_decorations.1 sm5a 3 9 2 [⟨3, 35, [7]⟩] (by decide) rfl (by decide),
   c5_uniform_decorations.2.2.1 sm5b 4 9 0 [⟨4, 33, [5]⟩] ⟨5, 0, .other, none⟩
     rfl (by decide) rfl⟩

end SpirvRefl
